import Mathlib

/-!
Shallow embedding of the token-indexing core of `jwt-token-detective`
(`src/utils/jwt.ts`, `src/background/background.ts`, `src/popup/popup.ts`),
together with models of the platform primitives those files call
(`String.prototype.split`, `atob`, `JSON.parse`, `crypto.subtle.digest("SHA-256")`,
`new Date(...)`).

JavaScript strings are sequences of UTF-16 code units; every string handled by
the core is a sequence of scalar values, which we embed as `List Char` (`JStr`).
Instants (`Date.getTime()` values) are embedded as `Int` epoch milliseconds.
-/

attribute [local semireducible] Rat.mul Rat.add Rat.sub Rat.inv Rat.ofScientific

/-- JavaScript string, embedded as its list of characters. -/
abbrev JStr := List Char

/-- Coerce a Lean string literal to the embedding's string type. -/
def str (s : String) : JStr := s.data

/-- Model of `token.split(".")` (JavaScript `String.prototype.split` with a
one-character separator): `"".split(".") = [""]`, separators at the ends
produce empty segments. -/
def splitOnDot : JStr → List JStr
  | [] => [[]]
  | c :: rest =>
    if c = '.' then [] :: splitOnDot rest
    else
      match splitOnDot rest with
      | [] => [[c]]
      | s :: ss => (c :: s) :: ss

/-- ASCII whitespace removed by the forgiving-base64 decoder (`atob`). -/
def isB64Ws (c : Char) : Bool :=
  c = ' ' || c = '\t' || c = '\n' || c = '\x0c' || c = '\r'

/-- Value of a character in the standard base64 alphabet. -/
def b64Val (c : Char) : Option Nat :=
  if 'A' ≤ c ∧ c ≤ 'Z' then some (c.toNat - 65)
  else if 'a' ≤ c ∧ c ≤ 'z' then some (c.toNat - 71)
  else if '0' ≤ c ∧ c ≤ '9' then some (c.toNat + 4)
  else if c = '+' then some 62
  else if c = '/' then some 63
  else none

/-- Turn a list of 6-bit values into bytes; a trailing group of 2 or 3
characters yields 1 or 2 bytes, extra bits are discarded (forgiving decode). -/
def b64Bytes : List Nat → List Nat
  | a :: b :: c :: d :: rest =>
    ((a <<< 2) ||| (b >>> 4)) % 256 ::
    (((b % 16) <<< 4) ||| (c >>> 2)) % 256 ::
    (((c % 4) <<< 6) ||| d) % 256 :: b64Bytes rest
  | [a, b] => [((a <<< 2) ||| (b >>> 4)) % 256]
  | [a, b, c] => [((a <<< 2) ||| (b >>> 4)) % 256, (((b % 16) <<< 4) ||| (c >>> 2)) % 256]
  | [_] => []
  | [] => []

/-- Collect a list of optional values, failing if any is `none`. -/
def allSome {α : Type} : List (Option α) → Option (List α)
  | [] => some []
  | none :: _ => none
  | some a :: rest => (allSome rest).map (a :: ·)

/-- Strip one or two trailing `'='` characters. -/
def stripPad (l : JStr) : JStr :=
  match l.reverse with
  | '=' :: '=' :: rest => rest.reverse
  | '=' :: rest => rest.reverse
  | _ => l

/-- Model of the platform's `atob` (WHATWG forgiving-base64 decode): strip
ASCII whitespace, strip up to two trailing `'='` when the length is a multiple
of four, reject a remainder-one length or a character outside the alphabet,
then decode; the result is the byte string (one character per byte). -/
def atob (s : JStr) : Option JStr :=
  let d := s.filter (fun c => !isB64Ws c)
  let d := if d.length % 4 = 0 then stripPad d else d
  if d.length % 4 = 1 then none
  else
    match allSome (d.map b64Val) with
    | none => none
    | some vals => some ((b64Bytes vals).map Char.ofNat)

/-- Model of `JWTUtils.base64UrlDecode`: pad the input to a multiple of four with `'='`,
translate the URL-safe alphabet to the standard one, and `atob` it.  The
source throws on bad input (caught by its callers); we return `none`. -/
def base64UrlDecode (s : JStr) : Option JStr :=
  let padded := s ++ List.replicate ((4 - s.length % 4) % 4) '='
  let tr := padded.map (fun c => if c = '-' then '+' else if c = '_' then '/' else c)
  atob tr

mutual
/-- JSON value as produced by the platform's `JSON.parse`.  Numbers are
embedded as exact rationals (JavaScript parses them to doubles; the claims
never depend on double rounding). -/
inductive Json where
  | null : Json
  | bool (b : Bool) : Json
  | num (q : Rat) : Json
  | str (s : JStr) : Json
  | arr (elems : JsonList) : Json
  | obj (fields : JsonFields) : Json
  deriving DecidableEq

/-- List of JSON values (array elements). -/
inductive JsonList where
  | nil : JsonList
  | cons (hd : Json) (tl : JsonList) : JsonList
  deriving DecidableEq

/-- Ordered key/value fields of a JSON object. -/
inductive JsonFields where
  | nil : JsonFields
  | cons (k : JStr) (v : Json) (tl : JsonFields) : JsonFields
  deriving DecidableEq
end

/-- JSON whitespace. -/
def isJsonWs (c : Char) : Bool :=
  c = ' ' || c = '\t' || c = '\n' || c = '\r'

/-- Skip leading JSON whitespace. -/
def skipWs : JStr → JStr
  | [] => []
  | c :: rest => if isJsonWs c then skipWs rest else c :: rest

/-- Decimal digit value. -/
def digitVal (c : Char) : Option Nat :=
  if '0' ≤ c ∧ c ≤ '9' then some (c.toNat - 48) else none

/-- Read a maximal run of decimal digits. -/
def readDigits : JStr → (List Nat × JStr)
  | [] => ([], [])
  | c :: rest =>
    match digitVal c with
    | some d =>
      let (ds, r) := readDigits rest
      (d :: ds, r)
    | none => ([], c :: rest)

/-- Numeric value of a digit list (most significant first). -/
def digitsToNat (ds : List Nat) : Nat :=
  ds.foldl (fun acc d => acc * 10 + d) 0

/-- Parse the body of a JSON string literal (after the opening quote),
returning the decoded characters and the remainder past the closing quote.
`\uXXXX` escapes are decoded; a surrogate (which Lean's `Char` cannot carry)
is replaced by U+FFFD, which no claim depends on. -/
def parseJsonStr (fuel : Nat) (cs : JStr) : Option (JStr × JStr) :=
  match fuel with
  | 0 => none
  | fuel + 1 =>
    match cs with
    | [] => none
    | '"' :: rest => some ([], rest)
    | '\\' :: e :: rest =>
      let cont (c : Char) (r : JStr) : Option (JStr × JStr) :=
        match parseJsonStr fuel r with
        | some (s, r') => some (c :: s, r')
        | none => none
      match e with
      | '"' => cont '"' rest
      | '\\' => cont '\\' rest
      | '/' => cont '/' rest
      | 'b' => cont '\x08' rest
      | 'f' => cont '\x0c' rest
      | 'n' => cont '\n' rest
      | 'r' => cont '\r' rest
      | 't' => cont '\t' rest
      | 'u' =>
        match rest with
        | h1 :: h2 :: h3 :: h4 :: rest' =>
          let hv (c : Char) : Option Nat :=
            if '0' ≤ c ∧ c ≤ '9' then some (c.toNat - 48)
            else if 'a' ≤ c ∧ c ≤ 'f' then some (c.toNat - 87)
            else if 'A' ≤ c ∧ c ≤ 'F' then some (c.toNat - 55)
            else none
          match hv h1, hv h2, hv h3, hv h4 with
          | some a, some b, some c, some d =>
            let n := ((a * 16 + b) * 16 + c) * 16 + d
            let ch := if 0xd800 ≤ n ∧ n < 0xe000 then '�' else Char.ofNat n
            cont ch rest'
          | _, _, _, _ => none
        | _ => none
      | _ => none
    | c :: rest =>
      if c.toNat < 0x20 then none
      else
        match parseJsonStr fuel rest with
        | some (s, r') => some (c :: s, r')
        | none => none

/-- Parse a JSON number per the JSON grammar (`-? int frac? exp?`, no leading
zeros), returning its exact rational value. -/
def parseJsonNum (cs : JStr) : Option (Rat × JStr) :=
  let (neg, cs1) := match cs with
    | '-' :: rest => (true, rest)
    | _ => (false, cs)
  match readDigits cs1 with
  | ([], _) => none
  | (intDs, cs2) =>
    if intDs.length > 1 ∧ intDs.headI = 0 then none
    else
      let fracPart : Option (List Nat × JStr) := match cs2 with
        | '.' :: rest =>
          match readDigits rest with
          | ([], _) => none
          | (ds, r) => some (ds, r)
        | _ => some ([], cs2)
      match fracPart with
      | none => none
      | some (fracDs, cs3) =>
        let expPart : Option (Int × JStr) := match cs3 with
          | e :: rest =>
            if e = 'e' ∨ e = 'E' then
              let (esign, rest') := match rest with
                | '+' :: r => ((1 : Int), r)
                | '-' :: r => ((-1 : Int), r)
                | _ => ((1 : Int), rest)
              match readDigits rest' with
              | ([], _) => none
              | (eds, r) => some (esign * digitsToNat eds, r)
            else some (0, e :: rest)
          | [] => some (0, [])
        match expPart with
        | none => none
        | some (ex, cs4) =>
          let mant : Rat := (digitsToNat intDs : Rat) +
            (digitsToNat fracDs : Rat) / ((10 : Rat) ^ fracDs.length)
          let mag : Rat := if 0 ≤ ex then mant * (10 : Rat) ^ ex.toNat
            else mant / ((10 : Rat) ^ (-ex).toNat)
          some (if neg then -mag else mag, cs4)

mutual
/-- Parse one JSON value; `fuel` bounds recursion depth. -/
def parseJsonVal (fuel : Nat) (cs : JStr) : Option (Json × JStr) :=
  match fuel with
  | 0 => none
  | fuel + 1 =>
    match skipWs cs with
    | [] => none
    | c :: rest =>
      if c = '"' then
        match parseJsonStr (rest.length + 1) rest with
        | some (s, r) => some (.str s, r)
        | none => none
      else if c = '[' then
        match skipWs rest with
        | ']' :: r => some (.arr .nil, r)
        | r =>
          match parseJsonArr fuel r with
          | some (es, r') => some (.arr es, r')
          | none => none
      else if c = '{' then
        match skipWs rest with
        | '}' :: r => some (.obj .nil, r)
        | r =>
          match parseJsonObj fuel r with
          | some (fs, r') => some (.obj fs, r')
          | none => none
      else if c = 't' then
        match rest with
        | 'r' :: 'u' :: 'e' :: r => some (.bool true, r)
        | _ => none
      else if c = 'f' then
        match rest with
        | 'a' :: 'l' :: 's' :: 'e' :: r => some (.bool false, r)
        | _ => none
      else if c = 'n' then
        match rest with
        | 'u' :: 'l' :: 'l' :: r => some (.null, r)
        | _ => none
      else
        match parseJsonNum (c :: rest) with
        | some (q, r) => some (.num q, r)
        | none => none

/-- Parse the elements of a non-empty JSON array (after `[`). -/
def parseJsonArr (fuel : Nat) (cs : JStr) : Option (JsonList × JStr) :=
  match fuel with
  | 0 => none
  | fuel + 1 =>
    match parseJsonVal fuel cs with
    | none => none
    | some (v, r) =>
      match skipWs r with
      | ',' :: r' =>
        match parseJsonArr fuel r' with
        | some (vs, r'') => some (.cons v vs, r'')
        | none => none
      | ']' :: r' => some (.cons v .nil, r')
      | _ => none

/-- Parse the members of a non-empty JSON object (after `{`). -/
def parseJsonObj (fuel : Nat) (cs : JStr) : Option (JsonFields × JStr) :=
  match fuel with
  | 0 => none
  | fuel + 1 =>
    match skipWs cs with
    | '"' :: r =>
      match parseJsonStr (r.length + 1) r with
      | none => none
      | some (k, r) =>
        match skipWs r with
        | ':' :: r =>
          match parseJsonVal fuel r with
          | none => none
          | some (v, r) =>
            match skipWs r with
            | ',' :: r' =>
              match parseJsonObj fuel r' with
              | some (fs, r'') => some (.cons k v fs, r'')
              | none => none
            | '}' :: r' => some (.cons k v .nil, r')
            | _ => none
        | _ => none
    | _ => none
end

/-- Model of the platform's `JSON.parse`: parse a value, allow surrounding
whitespace, reject trailing content. -/
def jsonParse (s : JStr) : Option Json :=
  match parseJsonVal (s.length + 1) s with
  | some (v, rest) => if skipWs rest = [] then some v else none
  | none => none

/-- Result of `JWTUtils.parseJWT`. -/
structure ParsedJWT where
  header : Json
  payload : Json
  signature : JStr
  deriving DecidableEq

/-- Model of `JWTUtils.parseJWT`: split on `'.'`, require exactly three parts, decode
and `JSON.parse` the first two, keep the third verbatim.  Any throw inside
the source's `try` is caught and surfaces as `null`, embedded as `none`. -/
def parseJWT (token : JStr) : Option ParsedJWT :=
  match splitOnDot token with
  | [a, b, c] =>
    match base64UrlDecode a with
    | none => none
    | some ha =>
      match jsonParse ha with
      | none => none
      | some header =>
        match base64UrlDecode b with
        | none => none
        | some pb =>
          match jsonParse pb with
          | none => none
          | some payload => some ⟨header, payload, c⟩
  | _ => none

/-- Property lookup `payload[k]` on a JSON value: only objects carry fields;
assignment order means the last duplicate key wins, as in a JS object built
by `JSON.parse`. -/
def jsFieldsGet (k : JStr) : JsonFields → Option Json
  | .nil => none
  | .cons k' v tl =>
    match jsFieldsGet k tl with
    | some w => some w
    | none => if k' = k then some v else none

/-- Property access in the `payload.exp` style: `undefined` (`none`) on any non-object. -/
def jsGetField (j : Json) (k : JStr) : Option Json :=
  match j with
  | .obj fields => jsFieldsGet k fields
  | _ => none

/-- The maximal magnitude of a valid JavaScript `Date` time value
(8.64e15 milliseconds, ECMA-262 `TimeClip`). -/
def maxDateMs : Nat := 8640000000000000

/-- ECMA-262 `ToIntegerOrInfinity` on a finite number: truncate toward zero. -/
def ratTrunc (q : Rat) : Int :=
  if 0 ≤ q then q.floor else q.ceil

/-- Model of `JWTUtils.getExpiryDate`: `null` when `payload.exp` is missing or not a
number; otherwise `new Date(exp * 1000)`, which the source additionally
validates with `isNaN(expiryDate.getTime())` — a time value beyond
`maxDateMs` in magnitude is an Invalid Date and also yields `null`. -/
def getExpiryDate (payload : Json) : Option Int :=
  match jsGetField payload (str "exp") with
  | some (.num q) =>
    let ms : Rat := q * 1000
    if |ms| > (maxDateMs : Rat) then none else some (ratTrunc ms)
  | _ => none

/-- Model of `JWTUtils.isTokenExpired` with the ambient `Date.now()` made explicit:
`false` when there is no expiry date, otherwise `expiry.getTime() < now`. -/
def isTokenExpired (payload : Json) (now : Int) : Bool :=
  match getExpiryDate payload with
  | none => false
  | some t => t < now

/-! ### SHA-256 (`crypto.subtle.digest("SHA-256", ...)`) and `generateTokenId` -/

/-- UTF-8 encoding of one scalar value (`TextEncoder`). -/
def utf8Char (c : Char) : List Nat :=
  let n := c.toNat
  if n < 0x80 then [n]
  else if n < 0x800 then [0xc0 ||| (n >>> 6), 0x80 ||| (n % 64)]
  else if n < 0x10000 then
    [0xe0 ||| (n >>> 12), 0x80 ||| ((n >>> 6) % 64), 0x80 ||| (n % 64)]
  else
    [0xf0 ||| (n >>> 18), 0x80 ||| ((n >>> 12) % 64), 0x80 ||| ((n >>> 6) % 64),
     0x80 ||| (n % 64)]

/-- UTF-8 encode a string to bytes (`new TextEncoder().encode(...)`). -/
def utf8Encode (s : JStr) : List Nat := s.flatMap utf8Char

/-- The constant `2^32`, the word modulus of SHA-256. -/
def M32 : Nat := 4294967296

/-- Rotate a 32-bit word right by `n`. -/
def rotr (n x : Nat) : Nat := ((x >>> n) ||| (x <<< (32 - n))) % M32

/-- SHA-256 round state / hash value: eight 32-bit words. -/
structure Hash8 where
  a : Nat
  b : Nat
  c : Nat
  d : Nat
  e : Nat
  f : Nat
  g : Nat
  h : Nat
  deriving DecidableEq

/-- Initial SHA-256 hash value (FIPS 180-4 §5.3.3). -/
def sha256Init : Hash8 :=
  ⟨0x6a09e667, 0xbb67ae85, 0x3c6ef372, 0xa54ff53a,
   0x510e527f, 0x9b05688c, 0x1f83d9ab, 0x5be0cd19⟩

/-- SHA-256 round constants (FIPS 180-4 §4.2.2), grouped in rows of eight. -/
def sha256K : List Nat :=
  [0x428a2f98, 0x71374491, 0xb5c0fbcf, 0xe9b5dba5,
   0x3956c25b, 0x59f111f1, 0x923f82a4, 0xab1c5ed5] ++
  [0xd807aa98, 0x12835b01, 0x243185be, 0x550c7dc3,
   0x72be5d74, 0x80deb1fe, 0x9bdc06a7, 0xc19bf174] ++
  [0xe49b69c1, 0xefbe4786, 0x0fc19dc6, 0x240ca1cc,
   0x2de92c6f, 0x4a7484aa, 0x5cb0a9dc, 0x76f988da] ++
  [0x983e5152, 0xa831c66d, 0xb00327c8, 0xbf597fc7,
   0xc6e00bf3, 0xd5a79147, 0x06ca6351, 0x14292967] ++
  [0x27b70a85, 0x2e1b2138, 0x4d2c6dfc, 0x53380d13,
   0x650a7354, 0x766a0abb, 0x81c2c92e, 0x92722c85] ++
  [0xa2bfe8a1, 0xa81a664b, 0xc24b8b70, 0xc76c51a3,
   0xd192e819, 0xd6990624, 0xf40e3585, 0x106aa070] ++
  [0x19a4c116, 0x1e376c08, 0x2748774c, 0x34b0bcb5,
   0x391c0cb3, 0x4ed8aa4a, 0x5b9cca4f, 0x682e6ff3] ++
  [0x748f82ee, 0x78a5636f, 0x84c87814, 0x8cc70208,
   0x90befffa, 0xa4506ceb, 0xbef9a3f7, 0xc67178f2]

/-- Message padding (FIPS 180-4 §5.1.1): append `0x80`, zeros to 56 mod 64,
then the bit length as eight big-endian bytes. -/
def sha256Pad (msg : List Nat) : List Nat :=
  let len := msg.length
  let zeros := (120 - (len + 1) % 64) % 64
  let bitLen := len * 8
  msg ++ [0x80] ++ List.replicate zeros 0 ++
    [(bitLen >>> 56) % 256, (bitLen >>> 48) % 256, (bitLen >>> 40) % 256,
     (bitLen >>> 32) % 256, (bitLen >>> 24) % 256, (bitLen >>> 16) % 256,
     (bitLen >>> 8) % 256, bitLen % 256]

/-- Group bytes into big-endian 32-bit words. -/
def bytesToWords : List Nat → List Nat
  | b0 :: b1 :: b2 :: b3 :: rest =>
    (((b0 <<< 24) ||| (b1 <<< 16) ||| (b2 <<< 8) ||| b3) % M32) :: bytesToWords rest
  | _ => []

/-- Split a list into 16-element chunks (the 512-bit blocks, as words); the
padded input is always a multiple of 16 words, a ragged tail is kept as-is. -/
def chunks16 : List Nat → List (List Nat)
  | w0 :: w1 :: w2 :: w3 :: w4 :: w5 :: w6 :: w7 ::
    w8 :: w9 :: w10 :: w11 :: w12 :: w13 :: w14 :: w15 :: rest =>
    [w0, w1, w2, w3, w4, w5, w6, w7, w8, w9, w10, w11, w12, w13, w14, w15] ::
    chunks16 rest
  | [] => []
  | l => [l]

/-- Schedule sigma-0 (FIPS 180-4 §4.1.2). -/
def ssig0 (x : Nat) : Nat := (rotr 7 x) ^^^ (rotr 18 x) ^^^ (x >>> 3)

/-- Schedule sigma-1. -/
def ssig1 (x : Nat) : Nat := (rotr 17 x) ^^^ (rotr 19 x) ^^^ (x >>> 10)

/-- Round Sigma-0. -/
def bsig0 (x : Nat) : Nat := (rotr 2 x) ^^^ (rotr 13 x) ^^^ (rotr 22 x)

/-- Round Sigma-1. -/
def bsig1 (x : Nat) : Nat := (rotr 6 x) ^^^ (rotr 11 x) ^^^ (rotr 25 x)

/-- Extend the 16 block words to the 64-entry message schedule; the schedule
is built most-recent-first and reversed at the end. -/
def schedExtend (wrev : List Nat) : Nat → List Nat
  | 0 => wrev
  | n + 1 =>
    let w := (ssig1 (wrev.getD 1 0) + wrev.getD 6 0 +
              ssig0 (wrev.getD 14 0) + wrev.getD 15 0) % M32
    schedExtend (w :: wrev) n

/-- One SHA-256 round (FIPS 180-4 §6.2.2 step 3). -/
def sha256Round (st : Hash8) (kw : Nat × Nat) : Hash8 :=
  let t1 := (st.h + bsig1 st.e + ((st.e &&& st.f) ^^^ ((st.e ^^^ 0xffffffff) &&& st.g))
             + kw.1 + kw.2) % M32
  let t2 := (bsig0 st.a + ((st.a &&& st.b) ^^^ (st.a &&& st.c) ^^^ (st.b &&& st.c))) % M32
  ⟨(t1 + t2) % M32, st.a, st.b, st.c, (st.d + t1) % M32, st.e, st.f, st.g⟩

/-- Compress one 16-word block into the running hash. -/
def sha256Block (st : Hash8) (block : List Nat) : Hash8 :=
  let w := (schedExtend block.reverse 48).reverse
  let r := (sha256K.zip w).foldl sha256Round st
  ⟨(st.a + r.a) % M32, (st.b + r.b) % M32, (st.c + r.c) % M32, (st.d + r.d) % M32,
   (st.e + r.e) % M32, (st.f + r.f) % M32, (st.g + r.g) % M32, (st.h + r.h) % M32⟩

/-- SHA-256 of a byte sequence, as eight 32-bit words. -/
def sha256Words (msg : List Nat) : Hash8 :=
  (chunks16 (bytesToWords (sha256Pad msg))).foldl sha256Block sha256Init

/-- The 32 digest bytes of a hash value (big-endian per word), the contents
of the `Uint8Array` the source builds from the digest buffer. -/
def hashBytes (st : Hash8) : List Nat :=
  [st.a, st.b, st.c, st.d, st.e, st.f, st.g, st.h].flatMap fun w =>
    [(w >>> 24) % 256, (w >>> 16) % 256, (w >>> 8) % 256, w % 256]

/-- Lowercase hexadecimal digit. -/
def hexDigit (k : Nat) : Char :=
  match k with
  | 0 => '0' | 1 => '1' | 2 => '2' | 3 => '3' | 4 => '4' | 5 => '5' | 6 => '6'
  | 7 => '7' | 8 => '8' | 9 => '9' | 10 => 'a' | 11 => 'b' | 12 => 'c'
  | 13 => 'd' | 14 => 'e' | _ => 'f'

/-- Model of `b.toString(16).padStart(2, "0")` for a byte `b < 256`: exactly the two
hex digits of `b`. -/
def byteHex (b : Nat) : JStr := [hexDigit (b / 16 % 16), hexDigit (b % 16)]

/-- Model of `hashArray.map(b => b.toString(16).padStart(2, "0")).join("")`. -/
def sha256Hex (msg : List Nat) : JStr := (hashBytes (sha256Words msg)).flatMap byteHex

/-- Model of `JWTUtils.generateTokenId`: for a non-three-part token return the token
itself; otherwise the SHA-256 hex digest of `payload + "." + signature`,
truncated to its first 16 characters (`substring(0, 16)`). -/
def generateTokenId (token : JStr) : JStr :=
  match splitOnDot token with
  | [_, b, c] => (sha256Hex (utf8Encode (b ++ '.' :: c))).take 16
  | _ => token

/-! ### Data model and `JWTDetectorBackground` (src/background/background.ts) -/

/-- Model of `RequestInfo` (src/types/jwt.ts): one observed request; `timestamp` is the
`Date` of interception as epoch milliseconds. -/
structure RequestInfo where
  id : JStr
  url : JStr
  method : JStr
  abbreviatedPath : JStr
  timestamp : Int
  deriving DecidableEq

/-- Model of `JWTTokenGroup` (src/types/jwt.ts): one credential group of the Index.
`expiryDate` is `Date | null` embedded as `Option Int` (all stored expiry
dates are valid instants); the optional `parseError` field is never set by
the core and is omitted. -/
structure JWTTokenGroup where
  tokenId : JStr
  raw : JStr
  header : Json
  payload : Json
  signature : JStr
  expiryDate : Option Int
  isExpired : Bool
  requests : List RequestInfo
  firstSeen : Int
  lastSeen : Int
  isValid : Bool
  deriving DecidableEq

/-- Model of `JWTUtils.createTokenGroup` with the ambient `Date.now()` made explicit:
`null` when the token does not parse, otherwise a group seeded with the one
request. -/
def createTokenGroup (now : Int) (token : JStr) (requestInfo : RequestInfo) :
    Option JWTTokenGroup :=
  match parseJWT token with
  | none => none
  | some parsed =>
    some
      { tokenId := generateTokenId token
        raw := token
        header := parsed.header
        payload := parsed.payload
        signature := parsed.signature
        expiryDate := getExpiryDate parsed.payload
        isExpired := isTokenExpired parsed.payload now
        requests := [requestInfo]
        firstSeen := requestInfo.timestamp
        lastSeen := requestInfo.timestamp
        isValid := true }

/-- Model of `Array.prototype.findIndex`, as an optional index. -/
def jsFindIndex {α : Type} (p : α → Bool) : List α → Option Nat
  | [] => none
  | x :: xs => if p x then some 0 else (jsFindIndex p xs).map Nat.succ

/-- Insert into a timestamp-descending list, before the first strictly older
entry (so equal timestamps keep their relative order). -/
def insertByTsDesc (r : RequestInfo) : List RequestInfo → List RequestInfo
  | [] => [r]
  | x :: xs =>
    if x.timestamp ≤ r.timestamp then r :: x :: xs else x :: insertByTsDesc r xs

/-- Model of `requests.sort((a, b) => b.timestamp.getTime() -
a.timestamp.getTime())`: a stable sort into descending timestamp order
(`Array.prototype.sort` is stable). -/
def sortByTsDesc (l : List RequestInfo) : List RequestInfo :=
  l.foldr insertByTsDesc []

/-- The constant `MAX_TOKEN_GROUPS` (group-count cap). -/
def MAX_TOKEN_GROUPS : Nat := 100

/-- The constant `RETENTION_HOURS` (request-retention window). -/
def RETENTION_HOURS : Nat := 24

/-- Per-group request cap (`last 50 per token`). -/
def MAX_REQUESTS_PER_GROUP : Nat := 50

/-- Model of `JWTDetectorBackground.storeTokenData` (the Index upsert), with the
ambient `Date.now()` made explicit and the storage round-trip elided: find
the group with the token's id; if found, push the request, refresh
`lastSeen`, re-derive `isExpired` when the token still parses, and trim the
request list to the newest 50 once it exceeds 50; otherwise create a new
group at the front (dropping the event if the token fails to parse).
Finally truncate the sequence to the group-count cap. -/
def storeTokenData (now : Int) (token : JStr) (requestInfo : RequestInfo)
    (tokenGroups : List JWTTokenGroup) : List JWTTokenGroup :=
  let tokenId := generateTokenId token
  let updated :=
    match jsFindIndex (fun g => g.tokenId == tokenId) tokenGroups with
    | some i =>
      match tokenGroups.get? i with
      | some existingGroup =>
        let g1 := { existingGroup with
          requests := existingGroup.requests ++ [requestInfo]
          lastSeen := requestInfo.timestamp }
        let g2 :=
          match parseJWT token with
          | some parsed => { g1 with isExpired := isTokenExpired parsed.payload now }
          | none => g1
        let g3 :=
          if g2.requests.length > MAX_REQUESTS_PER_GROUP then
            { g2 with requests := (sortByTsDesc g2.requests).take MAX_REQUESTS_PER_GROUP }
          else g2
        tokenGroups.set i g3
      | none => tokenGroups
    | none =>
      match createTokenGroup now token requestInfo with
      | some newGroup => newGroup :: tokenGroups
      | none => tokenGroups
  if updated.length > MAX_TOKEN_GROUPS then updated.take MAX_TOKEN_GROUPS else updated

/-- The sweep's cutoff instant, `Date.now() - RETENTION_HOURS * 60 * 60 * 1000`. -/
def retentionCutoff (now : Int) : Int := now - RETENTION_HOURS * 60 * 60 * 1000

/-- The `map` step of `cleanupOldData`: recompute `isExpired` and prune
requests observed at or before the cutoff. -/
def sweepUpdateGroup (now cutoffTime : Int) (group : JWTTokenGroup) : JWTTokenGroup :=
  { group with
    isExpired := isTokenExpired group.payload now
    requests := group.requests.filter (fun req => cutoffTime < req.timestamp) }

/-- The `filter` step of `cleanupOldData`: keep a group iff it still has
requests or its `lastSeen` is not older than the cutoff. -/
def sweepKeep (cutoffTime : Int) (group : JWTTokenGroup) : Bool :=
  group.requests.length > 0 || !(group.lastSeen < cutoffTime)

/-- Model of `JWTDetectorBackground.cleanupOldData` (the retention sweep) on an
in-memory snapshot, ambient `Date.now()` explicit, storage round-trip
elided. -/
def cleanupOldData (now : Int) (tokenGroups : List JWTTokenGroup) :
    List JWTTokenGroup :=
  (tokenGroups.map (sweepUpdateGroup now (retentionCutoff now))).filter
    (sweepKeep (retentionCutoff now))

/-! ### Snapshot reconstitution (background `getStorage`, popup `getStorage`/`parseDate`) -/

/-- A serialized timestamp field as found in the persisted snapshot:
an ISO string, an epoch-millis number, or `null`. -/
inductive SVal where
  | str (s : JStr) : SVal
  | num (n : Int) : SVal
  | null : SVal
  deriving DecidableEq

/-- JavaScript truthiness of a serialized value. -/
def svalTruthy : SVal → Bool
  | .str s => s ≠ []
  | .num n => n ≠ 0
  | .null => false

/-- Two-digit number from characters. -/
def digit2 (a b : Char) : Option Nat :=
  match digitVal a, digitVal b with
  | some x, some y => some (x * 10 + y)
  | _, _ => none

/-- Days in a month of the proleptic Gregorian calendar. -/
def daysInMonth (y m : Nat) : Nat :=
  if m = 2 then
    if y % 4 = 0 ∧ (y % 100 ≠ 0 ∨ y % 400 = 0) then 29 else 28
  else if m = 4 ∨ m = 6 ∨ m = 9 ∨ m = 11 then 30
  else 31

/-- Days from the epoch to civil date `y-m-d` (civil-from-days inverse,
valid for years ≥ 1). -/
def daysFromCivil (y m d : Nat) : Int :=
  let y' := if m ≤ 2 then y - 1 else y
  let era := y' / 400
  let yoe := y' % 400
  let mp := (m + 9) % 12
  let doy := (153 * mp + 2) / 5 + d - 1
  let doe := yoe * 365 + yoe / 4 - yoe / 100 + doy
  (era * 146097 + doe : Int) - 719468

/-- Simplified model of the platform's `Date` string parser (`new
Date(string)`), covering the ISO-8601 forms the snapshot serializer emits:
`YYYY-MM-DD`, optionally followed by `THH:MM:SS` and `.mmm`, optionally
suffixed `Z` (interpreted as UTC either way).  Everything else — in
particular any non-date text — is an Invalid Date (`none`).  The claims
depend only on unparseable strings being rejected and on the handling of
the result, not on the exact accepted language. -/
def isoParse (s : JStr) : Option Int :=
  match s with
  | y1 :: y2 :: y3 :: y4 :: '-' :: m1 :: m2 :: '-' :: d1 :: d2 :: rest =>
    match digit2 y1 y2, digit2 y3 y4, digit2 m1 m2, digit2 d1 d2 with
    | some yh, some yl, some mo, some dd =>
      let y := yh * 100 + yl
      if 1 ≤ mo ∧ mo ≤ 12 ∧ 1 ≤ dd ∧ dd ≤ daysInMonth y mo ∧ 1 ≤ y then
        let timeMs : Option Int :=
          match rest with
          | [] => some 0
          | 'T' :: h1 :: h2 :: ':' :: mi1 :: mi2 :: ':' :: s1 :: s2 :: rest' =>
            match digit2 h1 h2, digit2 mi1 mi2, digit2 s1 s2 with
            | some hh, some mi, some ss =>
              if hh ≤ 23 ∧ mi ≤ 59 ∧ ss ≤ 59 then
                let base : Int := hh * 3600000 + mi * 60000 + ss * 1000
                match rest' with
                | [] => some base
                | ['Z'] => some base
                | '.' :: f1 :: f2 :: f3 :: rest'' =>
                  match digit2 f1 f2, digitVal f3 with
                  | some fh, some fl =>
                    match rest'' with
                    | [] => some (base + (fh * 10 + fl : Nat))
                    | ['Z'] => some (base + (fh * 10 + fl : Nat))
                    | _ => none
                  | _, _ => none
                | _ => none
              else none
            | _, _, _ => none
          | _ => none
        match timeMs with
        | some t => some (daysFromCivil y mo dd * 86400000 + t)
        | none => none
      else none
    | _, _, _, _ => none
  | _ => none

/-- Model of `new Date(value)` on a serialized value; `none` is an Invalid Date
(`getTime()` is `NaN`).  A number beyond the `TimeClip` range and an
unparseable string are Invalid; `new Date(null)` is the epoch. -/
def jsNewDate : SVal → Option Int
  | .num n => if n.natAbs > maxDateMs then none else some n
  | .str s =>
    match isoParse s with
    | some t => if t.natAbs > maxDateMs then none else some t
    | none => none
  | .null => some 0

/-- A request record as read back from the persisted snapshot. -/
structure RawRequest where
  id : JStr
  url : JStr
  method : JStr
  abbreviatedPath : JStr
  timestamp : SVal
  deriving DecidableEq

/-- A credential group as read back from the persisted snapshot (all
instant fields still serialized). -/
structure RawTokenGroup where
  tokenId : JStr
  raw : JStr
  header : Json
  payload : Json
  signature : JStr
  expiryDate : SVal
  isExpired : Bool
  requests : List RawRequest
  firstSeen : SVal
  lastSeen : SVal
  isValid : Bool
  deriving DecidableEq

/-- A request as reconstituted by the background's `getStorage`; `timestamp`
may be an Invalid Date. -/
structure BgRequest where
  id : JStr
  url : JStr
  method : JStr
  abbreviatedPath : JStr
  timestamp : Option Int
  deriving DecidableEq

/-- A group as reconstituted by the background's `getStorage`: `expiryDate`
is `null` (`none`) or a `Date` that may itself be Invalid (`some none`);
`firstSeen`/`lastSeen` are `Date`s that may be Invalid. -/
structure BgTokenGroup where
  tokenId : JStr
  raw : JStr
  header : Json
  payload : Json
  signature : JStr
  expiryDate : Option (Option Int)
  isExpired : Bool
  requests : List BgRequest
  firstSeen : Option Int
  lastSeen : Option Int
  isValid : Bool
  deriving DecidableEq

/-- The background `getStorage` per-group mapping:
`expiryDate: group.expiryDate ? new Date(group.expiryDate) : null`,
`firstSeen: new Date(group.firstSeen)`, `lastSeen: new Date(group.lastSeen)`,
and `new Date(req.timestamp)` per request — with no validity check. -/
def bgLoadGroup (group : RawTokenGroup) : BgTokenGroup :=
  { tokenId := group.tokenId
    raw := group.raw
    header := group.header
    payload := group.payload
    signature := group.signature
    expiryDate := if svalTruthy group.expiryDate then some (jsNewDate group.expiryDate) else none
    isExpired := group.isExpired
    requests := group.requests.map fun req =>
      { id := req.id, url := req.url, method := req.method
        abbreviatedPath := req.abbreviatedPath, timestamp := jsNewDate req.timestamp }
    firstSeen := jsNewDate group.firstSeen
    lastSeen := jsNewDate group.lastSeen
    isValid := group.isValid }

/-- Model of `JWTPopup.parseDate`: `null` for a falsy input, a valid `Date`, or `null`
when the parse produces an Invalid Date. -/
def popupParseDate (v : SVal) : Option Int :=
  if !svalTruthy v then none
  else jsNewDate v

/-- The popup `getStorage` per-group mapping: expiry via `parseDate` (absent
when unparseable), `isExpired` re-derived when possible, `firstSeen`/
`lastSeen`/request timestamps via `parseDate(...) || new Date()` (the
current instant when unparseable). -/
def popupLoadGroup (now : Int) (group : RawTokenGroup) : JWTTokenGroup :=
  let parsedExpiryDate := popupParseDate group.expiryDate
  let isExpired :=
    match parsedExpiryDate with
    | some t => decide (t < now)
    | none =>
      match jsGetField group.payload (str "exp") with
      | some (.num q) => decide (q * 1000 < (now : Rat))
      | _ => group.isExpired
  { tokenId := group.tokenId
    raw := group.raw
    header := group.header
    payload := group.payload
    signature := group.signature
    expiryDate := parsedExpiryDate
    isExpired := isExpired
    requests := group.requests.map fun req =>
      { id := req.id, url := req.url, method := req.method
        abbreviatedPath := req.abbreviatedPath
        timestamp := (popupParseDate req.timestamp).getD now }
    firstSeen := (popupParseDate group.firstSeen).getD now
    lastSeen := (popupParseDate group.lastSeen).getD now
    isValid := group.isValid }

/-! ### C1: the retention sweep evicts iff pruned-empty and idle -/

/-- C1: the sweep (`cleanupOldData`) evicts a group iff, after age-pruning
its request list, no request survives AND its `lastSeen` is older than the
request-retention window; in particular any group that still holds a request
observed within the window is retained — regardless of its credential's
expiry, which never triggers eviction by itself. -/
theorem claim_C1 (now : Int) (gs : List JWTTokenGroup) (g : JWTTokenGroup)
    (hg : g ∈ gs) :
    (sweepKeep (retentionCutoff now) (sweepUpdateGroup now (retentionCutoff now) g) = false ↔
      (sweepUpdateGroup now (retentionCutoff now) g).requests = [] ∧
        g.lastSeen < retentionCutoff now) ∧
    ((∃ r ∈ g.requests, retentionCutoff now < r.timestamp) →
      sweepUpdateGroup now (retentionCutoff now) g ∈ cleanupOldData now gs) := by
  constructor
  · simp only [sweepKeep, sweepUpdateGroup, Bool.or_eq_false_iff,
      decide_eq_false_iff_not, Bool.not_eq_false', decide_eq_true_eq,
      Nat.pos_iff_ne_zero, ne_eq, not_not, List.length_eq_zero]
  · rintro ⟨r, hr, hrt⟩
    refine List.mem_filter.mpr ⟨List.mem_map_of_mem _ hg, ?_⟩
    have hmem : r ∈ (sweepUpdateGroup now (retentionCutoff now) g).requests := by
      simp only [sweepUpdateGroup]
      exact List.mem_filter.mpr ⟨hr, by simpa using hrt⟩
    simp only [sweepKeep, Bool.or_eq_true, decide_eq_true_eq]
    left
    exact List.length_pos.mpr (List.ne_nil_of_mem hmem)

/-- Payload of a credential that expired at epoch+1000ms. -/
def pExpired : Json := Json.obj (.cons (str "exp") (.num 1) .nil)

/-- A request observed one minute before `now = 100000000`. -/
def reqRecent : RequestInfo :=
  { id := str "r1", url := str "https://api.example.com/v1/users/1"
    method := str "GET", abbreviatedPath := str "v1/users/1"
    timestamp := 99940000 }

/-- A group whose credential is long expired but which was used a minute ago. -/
def gExpired : JWTTokenGroup :=
  { tokenId := str "abc123", raw := str "tok", header := Json.obj .nil
    payload := pExpired, signature := str "sig", expiryDate := some 1000
    isExpired := true, requests := [reqRecent], firstSeen := 99940000
    lastSeen := 99940000, isValid := true }

/-- C1 witness: the expired-but-recently-used group survives the sweep. -/
theorem claim_C1_witness :
    sweepUpdateGroup 100000000 (retentionCutoff 100000000) gExpired ∈
      cleanupOldData 100000000 [gExpired] ∧
    isTokenExpired gExpired.payload 100000000 = true :=
  ⟨(claim_C1 100000000 [gExpired] gExpired (List.mem_singleton.mpr rfl)).2
      ⟨reqRecent, by decide, by decide⟩, by decide⟩

/-! ### C3: decode failure conditions -/

/-- C3 counterexample: the claim requires three NON-EMPTY segments whose
first two decode to structured objects; but `parseJWT` accepts the token
`"Mw.Mw."` whose third segment is empty and whose header and payload decode
to the JSON number `3`, not an object. -/
theorem claim_C3_cex :
    ¬ (∀ (t : JStr) (r : ParsedJWT), parseJWT t = some r →
        (splitOnDot t).length = 3 ∧ (∀ seg ∈ splitOnDot t, seg ≠ []) ∧
        (∃ fs, r.header = Json.obj fs) ∧ (∃ fs, r.payload = Json.obj fs)) := by
  intro h
  have hp : parseJWT (str "Mw.Mw.") = some ⟨Json.num 3, Json.num 3, []⟩ := by decide
  exact (h _ _ hp).2.1 [] (by decide) rfl

/-- C3 (amended): `parseJWT` succeeds iff the input splits on `'.'` into
exactly three segments (possibly empty) whose first two are valid
padded/unpadded URL-safe base64 decoding to valid JSON text (of any kind,
not only objects); every failure yields the error value `none` — the model
is a total function, so no exception can escape. -/
theorem claim_C3 (t : JStr) (r : ParsedJWT) :
    parseJWT t = some r ↔
      ∃ a b, splitOnDot t = [a, b, r.signature] ∧
        ∃ ha, base64UrlDecode a = some ha ∧ jsonParse ha = some r.header ∧
          ∃ pb, base64UrlDecode b = some pb ∧ jsonParse pb = some r.payload := by
  obtain ⟨rh, rp, rs⟩ := r
  unfold parseJWT
  rcases hs : splitOnDot t with _ | ⟨a, _ | ⟨b, _ | ⟨c, _ | ⟨d, tl⟩⟩⟩⟩
  case nil => simp
  case cons.nil => simp
  case cons.cons.nil => simp
  case cons.cons.cons.cons => simp
  constructor
  · intro h
    rcases hda : base64UrlDecode a with _ | ha
    · simp only [hda] at h
      exact Option.noConfusion h
    rcases hja : jsonParse ha with _ | jh
    · simp only [hda, hja] at h
      exact Option.noConfusion h
    rcases hdb : base64UrlDecode b with _ | pb
    · simp only [hda, hja, hdb] at h
      exact Option.noConfusion h
    rcases hjb : jsonParse pb with _ | jp
    · simp only [hda, hja, hdb, hjb] at h
      exact Option.noConfusion h
    simp only [hda, hja, hdb, hjb, Option.some.injEq, ParsedJWT.mk.injEq] at h
    obtain ⟨rfl, rfl, rfl⟩ := h
    exact ⟨a, b, rfl, ha, hda, hja, pb, hdb, hjb⟩
  · rintro ⟨a', b', hsplit, ha, hda, hja, pb, hdb, hjb⟩
    obtain ⟨rfl, rfl, rfl⟩ : a = a' ∧ b = b' ∧ c = rs := by
      simpa using hsplit
    simp [hda, hja, hdb, hjb]

/-! ### C6: expiry instant and expiry predicate -/

/-- A payload whose `exp` is the number 12. -/
def pExpired12 : Json := Json.obj (.cons (str "exp") (.num 12) .nil)

/-- A payload whose `exp` is the number `10^16` (a valid JSON number whose
instant lies beyond the `Date` range). -/
def pHugeExp : Json := Json.obj (.cons (str "exp") (.num 10000000000000000) .nil)

/-- C6 counterexample: the claim says that whenever `payload.exp` is a
number, the expiry instant is `exp` seconds since the epoch; but for
`exp = 10^16` the source's `isNaN(new Date(exp * 1000).getTime())` guard
fires and `getExpiryDate` returns `null` instead. -/
theorem claim_C6_cex :
    ¬ (∀ (p : Json) (q : Rat), jsGetField p (str "exp") = some (Json.num q) →
        getExpiryDate p = some (ratTrunc (q * 1000))) := by
  intro h
  have h1 := h pHugeExp 10000000000000000 (by decide)
  rw [show getExpiryDate pHugeExp = none from by decide] at h1
  exact Option.noConfusion h1

/-- C6 (amended): `getExpiryDate` is absent when `payload.exp` is missing or
not a number, and also — the correction — when the instant `exp * 1000` ms
falls outside the representable `Date` range; otherwise it is the instant at
`exp` seconds since the epoch.  `isTokenExpired` is `false` whenever the
expiry is absent, and otherwise holds iff the expiry is strictly earlier
than `now` (an expiry equal to `now` is not expired).  Both functions are
total, so neither can throw. -/
theorem claim_C6 (p : Json) (now : Int) :
    (∀ q : Rat, jsGetField p (str "exp") = some (Json.num q) →
      |q * 1000| ≤ (maxDateMs : Rat) → getExpiryDate p = some (ratTrunc (q * 1000))) ∧
    (∀ q : Rat, jsGetField p (str "exp") = some (Json.num q) →
      |q * 1000| > (maxDateMs : Rat) → getExpiryDate p = none) ∧
    ((∀ q : Rat, jsGetField p (str "exp") ≠ some (Json.num q)) →
      getExpiryDate p = none) ∧
    (getExpiryDate p = none → isTokenExpired p now = false) ∧
    (∀ t : Int, getExpiryDate p = some t →
      (isTokenExpired p now = true ↔ t < now)) := by
  refine ⟨?_, ?_, ?_, ?_, ?_⟩
  · intro q hq hle
    simp [getExpiryDate, hq, not_lt.mpr hle]
  · intro q hq hgt
    simp [getExpiryDate, hq, hgt]
  · intro hnone
    unfold getExpiryDate
    rcases hfield : jsGetField p (str "exp") with _ | j
    · rfl
    · cases j with
      | num q => exact absurd hfield (hnone q)
      | null => rfl
      | bool b => rfl
      | str s => rfl
      | arr es => rfl
      | obj fs => rfl
  · intro hnone
    simp [isTokenExpired, hnone]
  · intro t ht
    simp [isTokenExpired, ht]

/-- C6 witness: for `exp = 12` (instant 12000 ms) the expiry is 12000 and the
credential is expired at `now = 12001` but not at `now = 12000`. -/
theorem claim_C6_witness :
    getExpiryDate pExpired12 = some (ratTrunc ((12 : Rat) * 1000)) ∧
    (isTokenExpired pExpired12 12001 = true ↔ ratTrunc ((12 : Rat) * 1000) < 12001) ∧
    (isTokenExpired pExpired12 12000 = true ↔ ratTrunc ((12 : Rat) * 1000) < 12000) := by
  have h1 := (claim_C6 pExpired12 12001).1 12 (by decide) (by decide)
  exact ⟨h1, (claim_C6 pExpired12 12001).2.2.2.2 _ h1, (claim_C6 pExpired12 12000).2.2.2.2 _ h1⟩

/-! ### C9: reconstituting serialized timestamps -/

/-- A persisted group whose serialized `expiryDate` and `firstSeen` are
unparseable text and whose sole request carries an unparseable timestamp. -/
def rawBad : RawTokenGroup :=
  { tokenId := str "t1", raw := str "tok", header := Json.obj .nil
    payload := Json.obj .nil, signature := str "sig"
    expiryDate := .str (str "garbage"), isExpired := false
    requests := [{ id := str "q1", url := str "u", method := str "GET"
                   abbreviatedPath := str "p", timestamp := .str (str "garbage") }]
    firstSeen := .str (str "garbage"), lastSeen := .num 5, isValid := true }

/-- C9 counterexample: the background's load (`getStorage`) does NOT treat an
unparseable timestamp as absent/now: `new Date("garbage")` produces an
Invalid Date, so the reconstituted `firstSeen` is an invalid instant (not
the current instant, which would be `some now`), and the reconstituted
`expiryDate` is a present-but-invalid date rather than absent. -/
theorem claim_C9_cex :
    isoParse (str "garbage") = none ∧
    (bgLoadGroup rawBad).firstSeen = none ∧
    (bgLoadGroup rawBad).expiryDate = some none ∧
    ((bgLoadGroup rawBad).requests.map (·.timestamp)) = [none] := by
  refine ⟨by decide, by decide, by decide, by decide⟩

/-- C9 (amended): the POPUP's load is the defensive one: reconstitution never
raises (the model is total), an unparseable serialized expiry is treated as
absent, and an unparseable `firstSeen`/`lastSeen`/request `observedAt` is
replaced by the current instant.  The background's load also never raises
but yields Invalid-Date instants instead (see the counterexample). -/
theorem claim_C9 (now : Int) (rg : RawTokenGroup) :
    (popupParseDate rg.expiryDate = none → (popupLoadGroup now rg).expiryDate = none) ∧
    (popupParseDate rg.firstSeen = none → (popupLoadGroup now rg).firstSeen = now) ∧
    (popupParseDate rg.lastSeen = none → (popupLoadGroup now rg).lastSeen = now) ∧
    (∀ rr ∈ rg.requests, popupParseDate rr.timestamp = none →
      ∃ lr ∈ (popupLoadGroup now rg).requests, lr.id = rr.id ∧ lr.timestamp = now) := by
  refine ⟨?_, ?_, ?_, ?_⟩
  · intro h
    simp [popupLoadGroup, h]
  · intro h
    simp [popupLoadGroup, h]
  · intro h
    simp [popupLoadGroup, h]
  · intro rr hrr h
    refine ⟨_, List.mem_map_of_mem _ hrr, rfl, ?_⟩
    simp [h]

/-- C9 witness: on the concrete malformed snapshot group, the popup load
replaces the unparseable expiry by "absent" and the unparseable `firstSeen`
and request timestamp by the current instant. -/
theorem claim_C9_witness :
    (popupLoadGroup 777 rawBad).expiryDate = none ∧
    (popupLoadGroup 777 rawBad).firstSeen = 777 ∧
    ∃ lr ∈ (popupLoadGroup 777 rawBad).requests, lr.id = str "q1" ∧ lr.timestamp = 777 := by
  have h := claim_C9 777 rawBad
  exact ⟨h.1 (by decide), h.2.1 (by decide),
    (by
      refine h.2.2.2 ⟨str "q1", str "u", str "GET", str "p", .str (str "garbage")⟩ ?_ ?_
      · decide
      · decide)⟩

/-! ### Properties of the token identity -/

/-- Every output of `hexDigit` is a lowercase hex character. -/
theorem hexDigit_mem_hex (k : Nat) : hexDigit k ∈ str "0123456789abcdef" := by
  unfold hexDigit
  split <;> decide

/-- No hex character is a dot. -/
theorem hexChar_ne_dot : ∀ c ∈ str "0123456789abcdef", c ≠ '.' := by decide

/-- Characters of `byteHex` are hex characters. -/
theorem byteHex_mem_hex (b : Nat) : ∀ c ∈ byteHex b, c ∈ str "0123456789abcdef" := by
  intro c hc
  rcases hc with _ | ⟨_, _ | ⟨_, h⟩⟩ <;> first | exact hexDigit_mem_hex _ | cases h

/-- Characters of a SHA-256 hex digest are hex characters. -/
theorem sha256Hex_mem_hex (m : List Nat) :
    ∀ c ∈ sha256Hex m, c ∈ str "0123456789abcdef" := by
  intro c hc
  obtain ⟨b, _, hb⟩ := List.mem_flatMap.mp hc
  exact byteHex_mem_hex b c hb

/-- The function `splitOnDot` never returns the empty list. -/
theorem splitOnDot_ne_nil (l : JStr) : splitOnDot l ≠ [] := by
  cases l with
  | nil => simp [splitOnDot]
  | cons c cs =>
    rw [splitOnDot]
    by_cases hc : c = '.'
    · simp [hc]
    · rw [if_neg hc]
      rcases hsp : splitOnDot cs with _ | ⟨s, ss⟩ <;> simp

/-- A dot-free string is returned whole by `splitOnDot`. -/
theorem splitOnDot_of_no_dot (l : JStr) (h : '.' ∉ l) : splitOnDot l = [l] := by
  induction l with
  | nil => rfl
  | cons c cs ih =>
    rw [splitOnDot]
    have hc : ¬ c = '.' := fun e => h (e ▸ List.mem_cons_self c cs)
    rw [if_neg hc, ih (fun hm => h (List.mem_cons_of_mem _ hm))]

/-- Splitting at the first dot after a dot-free prefix. -/
theorem splitOnDot_append_dot (xs ys : JStr) (h : '.' ∉ xs) :
    splitOnDot (xs ++ '.' :: ys) = xs :: splitOnDot ys := by
  induction xs with
  | nil => simp [splitOnDot]
  | cons c cs ih =>
    have hc : ¬ c = '.' := fun e => h (e ▸ List.mem_cons_self c cs)
    rw [List.cons_append, splitOnDot, if_neg hc,
      ih (fun hm => h (List.mem_cons_of_mem _ hm))]

/-- The identity of a three-part token is the truncated digest of
`payload + "." + signature`. -/
theorem generateTokenId_three (tok a b c : JStr) (h : splitOnDot tok = [a, b, c]) :
    generateTokenId tok = (sha256Hex (utf8Encode (b ++ '.' :: c))).take 16 := by
  unfold generateTokenId
  rw [h]

/-- Characters of a three-part token's identity are hex characters. -/
theorem generateTokenId_mem_hex (tok a b c : JStr) (h : splitOnDot tok = [a, b, c]) :
    ∀ ch ∈ generateTokenId tok, ch ∈ str "0123456789abcdef" := by
  intro ch hch
  rw [generateTokenId_three tok a b c h] at hch
  exact sha256Hex_mem_hex _ ch (List.take_subset 16 _ hch)

/-- A three-part token's identity contains no dot. -/
theorem generateTokenId_no_dot (tok a b c : JStr) (h : splitOnDot tok = [a, b, c]) :
    '.' ∉ generateTokenId tok :=
  fun hm => hexChar_ne_dot _ (generateTokenId_mem_hex tok a b c h _ hm) rfl

/-- A `flatMap` with constant-length outputs has proportional length. -/
theorem length_flatMap_const {α β : Type} (f : α → List β) (n : Nat)
    (h : ∀ x, (f x).length = n) (l : List α) : (l.flatMap f).length = n * l.length := by
  induction l with
  | nil => simp
  | cons x xs ih => simp [List.flatMap_cons, ih, h x, Nat.mul_succ, Nat.add_comm]

/-- The digest byte array has 32 entries. -/
theorem hashBytes_length (st : Hash8) : (hashBytes st).length = 32 :=
  length_flatMap_const
    (fun w => [(w >>> 24) % 256, (w >>> 16) % 256, (w >>> 8) % 256, w % 256]) 4
    (fun _ => rfl) [st.a, st.b, st.c, st.d, st.e, st.f, st.g, st.h]

/-- A SHA-256 hex digest has 64 characters. -/
theorem sha256Hex_length (m : List Nat) : (sha256Hex m).length = 64 := by
  unfold sha256Hex
  rw [length_flatMap_const byteHex 2 (fun b => rfl), hashBytes_length]

/-! ### C5: grouping identity -/

/-- C5 (amended): credentials with identical payload and signature segments
always map to the same identity, and that identity is the SHA-256 digest of
`payload-segment + "." + signature-segment` truncated to 16 lowercase hex
characters; but identity equality cannot conversely guarantee identical
segments — a 64-bit truncated digest of an unbounded segment space
necessarily contains collisions (see the counterexample). -/
theorem claim_C5 (c1 c2 a1 b1 s1 a2 b2 s2 : JStr)
    (h1 : splitOnDot c1 = [a1, b1, s1]) (h2 : splitOnDot c2 = [a2, b2, s2])
    (hb : b1 = b2) (hs : s1 = s2) :
    generateTokenId c1 = generateTokenId c2 ∧
    generateTokenId c1 = (sha256Hex (utf8Encode (b1 ++ '.' :: s1))).take 16 ∧
    (generateTokenId c1).length = 16 ∧
    (∀ ch ∈ generateTokenId c1, ch ∈ str "0123456789abcdef") := by
  subst hb hs
  refine ⟨?_, generateTokenId_three c1 a1 b1 s1 h1, ?_,
    generateTokenId_mem_hex c1 a1 b1 s1 h1⟩
  · rw [generateTokenId_three c1 a1 b1 s1 h1, generateTokenId_three c2 a2 b1 s1 h2]
  · rw [generateTokenId_three c1 a1 b1 s1 h1, List.length_take, sha256Hex_length]
    rfl

/-- C5 witness: two concrete credentials differing only in the header
segment share an identity, of 16 hex characters. -/
theorem claim_C5_witness :
    generateTokenId (str "AA.BB.CC") = generateTokenId (str "XX.BB.CC") ∧
    generateTokenId (str "AA.BB.CC") =
      (sha256Hex (utf8Encode (str "BB" ++ '.' :: str "CC"))).take 16 ∧
    (generateTokenId (str "AA.BB.CC")).length = 16 ∧
    (∀ ch ∈ generateTokenId (str "AA.BB.CC"), ch ∈ str "0123456789abcdef") :=
  claim_C5 (str "AA.BB.CC") (str "XX.BB.CC") (str "AA") (str "BB") (str "CC")
    (str "XX") (str "BB") (str "CC") (by decide) (by decide) rfl rfl

/-- All eight words of a compressed block are below `2^32`. -/
theorem sha256Block_lt (st : Hash8) (block : List Nat) :
    (sha256Block st block).a < M32 ∧ (sha256Block st block).b < M32 ∧
    (sha256Block st block).c < M32 ∧ (sha256Block st block).d < M32 ∧
    (sha256Block st block).e < M32 ∧ (sha256Block st block).f < M32 ∧
    (sha256Block st block).g < M32 ∧ (sha256Block st block).h < M32 := by
  have hM : 0 < M32 := by decide
  simp only [sha256Block]
  exact ⟨Nat.mod_lt _ hM, Nat.mod_lt _ hM, Nat.mod_lt _ hM, Nat.mod_lt _ hM,
    Nat.mod_lt _ hM, Nat.mod_lt _ hM, Nat.mod_lt _ hM, Nat.mod_lt _ hM⟩

/-- Folding blocks preserves the word bounds. -/
theorem foldl_sha256Block_lt (blocks : List (List Nat)) (st : Hash8)
    (h : st.a < M32 ∧ st.b < M32 ∧ st.c < M32 ∧ st.d < M32 ∧
         st.e < M32 ∧ st.f < M32 ∧ st.g < M32 ∧ st.h < M32) :
    (blocks.foldl sha256Block st).a < M32 ∧ (blocks.foldl sha256Block st).b < M32 ∧
    (blocks.foldl sha256Block st).c < M32 ∧ (blocks.foldl sha256Block st).d < M32 ∧
    (blocks.foldl sha256Block st).e < M32 ∧ (blocks.foldl sha256Block st).f < M32 ∧
    (blocks.foldl sha256Block st).g < M32 ∧ (blocks.foldl sha256Block st).h < M32 := by
  induction blocks generalizing st with
  | nil => exact h
  | cons b bs ih =>
    rw [List.foldl_cons]
    exact ih _ (sha256Block_lt st b)

/-- All eight words of a SHA-256 hash value are below `2^32`. -/
theorem sha256Words_lt (m : List Nat) :
    (sha256Words m).a < M32 ∧ (sha256Words m).b < M32 ∧
    (sha256Words m).c < M32 ∧ (sha256Words m).d < M32 ∧
    (sha256Words m).e < M32 ∧ (sha256Words m).f < M32 ∧
    (sha256Words m).g < M32 ∧ (sha256Words m).h < M32 :=
  foldl_sha256Block_lt _ sha256Init (by decide)

/-- The SHA-256 hash value packaged into a finite type: the digest of any
message is one of finitely many values. -/
def hashTuple (m : List Nat) :
    Fin M32 × Fin M32 × Fin M32 × Fin M32 × Fin M32 × Fin M32 × Fin M32 × Fin M32 :=
  (⟨(sha256Words m).a, (sha256Words_lt m).1⟩,
   ⟨(sha256Words m).b, (sha256Words_lt m).2.1⟩,
   ⟨(sha256Words m).c, (sha256Words_lt m).2.2.1⟩,
   ⟨(sha256Words m).d, (sha256Words_lt m).2.2.2.1⟩,
   ⟨(sha256Words m).e, (sha256Words_lt m).2.2.2.2.1⟩,
   ⟨(sha256Words m).f, (sha256Words_lt m).2.2.2.2.2.1⟩,
   ⟨(sha256Words m).g, (sha256Words_lt m).2.2.2.2.2.2.1⟩,
   ⟨(sha256Words m).h, (sha256Words_lt m).2.2.2.2.2.2.2⟩)

/-- Two hash values with equal words are equal. -/
theorem Hash8.ext_fields (x y : Hash8) (ha : x.a = y.a) (hb : x.b = y.b)
    (hc : x.c = y.c) (hd : x.d = y.d) (he : x.e = y.e) (hf : x.f = y.f)
    (hg : x.g = y.g) (hh : x.h = y.h) : x = y := by
  cases x
  cases y
  simp_all

/-- Equal packaged hash values mean equal hash values. -/
theorem hashTuple_inj {m1 m2 : List Nat} (h : hashTuple m1 = hashTuple m2) :
    sha256Words m1 = sha256Words m2 := by
  unfold hashTuple at h
  simp only [Prod.mk.injEq, Fin.mk.injEq] at h
  obtain ⟨h1, h2, h3, h4, h5, h6, h7, h8⟩ := h
  exact Hash8.ext_fields _ _ h1 h2 h3 h4 h5 h6 h7 h8

/-- A family of three-part credentials sharing a signature segment, with
pairwise distinct payload segments. -/
def padTok (n : Nat) : JStr := ['h'] ++ '.' :: (List.replicate (n + 1) 'a' ++ '.' :: ['s'])

/-- The credential `padTok n` splits into header `"h"`, payload `a…a` (`n+1` copies), and
signature `"s"`. -/
theorem splitOnDot_padTok (n : Nat) :
    splitOnDot (padTok n) = [['h'], List.replicate (n + 1) 'a', ['s']] := by
  unfold padTok
  rw [splitOnDot_append_dot ['h'] _ (by decide),
    splitOnDot_append_dot _ ['s'] (fun hm => by
      have := List.eq_of_mem_replicate hm
      exact absurd this (by decide)),
    splitOnDot_of_no_dot ['s'] (by decide)]

/-- C5 counterexample: identity equality does NOT imply identical payload
and signature segments.  The identity space is finite (a truncated digest)
while the space of payload segments is infinite, so by the pigeonhole
principle two credentials with different payload segments share an
identity; hence the claimed equivalence is refuted. -/
theorem claim_C5_cex :
    ¬ (∀ c1 c2 : JStr, (splitOnDot c1).length = 3 → (splitOnDot c2).length = 3 →
        (generateTokenId c1 = generateTokenId c2 ↔
          (splitOnDot c1).get? 1 = (splitOnDot c2).get? 1 ∧
          (splitOnDot c1).get? 2 = (splitOnDot c2).get? 2)) := by
  intro hclaim
  obtain ⟨n, m, hnm, heq⟩ :=
    Finite.exists_ne_map_eq_of_infinite
      (fun n : ℕ => hashTuple (utf8Encode (List.replicate (n + 1) 'a' ++ '.' :: ['s'])))
  have hw := hashTuple_inj heq
  have hsn := splitOnDot_padTok n
  have hsm := splitOnDot_padTok m
  have hid : generateTokenId (padTok n) = generateTokenId (padTok m) := by
    rw [generateTokenId_three _ _ _ _ hsn, generateTokenId_three _ _ _ _ hsm]
    unfold sha256Hex
    rw [hw]
  have hiff := (hclaim (padTok n) (padTok m) (by rw [hsn]; rfl) (by rw [hsm]; rfl)).mp hid
  rw [hsn, hsm] at hiff
  obtain ⟨hpay, _⟩ := hiff
  simp only [List.get?] at hpay
  have hlen := congrArg List.length (Option.some.injEq _ _ ▸ hpay : _)
  rw [List.length_replicate, List.length_replicate] at hlen
  exact hnm (by omega)

/-! ### C4: upserts with undecodable credentials -/

/-- The search `jsFindIndex` misses when the predicate fails everywhere. -/
theorem jsFindIndex_eq_none {α : Type} (p : α → Bool) (l : List α)
    (h : ∀ x ∈ l, p x = false) : jsFindIndex p l = none := by
  induction l with
  | nil => rfl
  | cons x xs ih =>
    rw [jsFindIndex, h x (List.mem_cons_self x xs),
      ih (fun y hy => h y (List.mem_cons_of_mem _ hy))]
    rfl

/-- C4 (amended): an upsert with a credential that fails to decode leaves
the Index unchanged — no group created, no record appended, no exception
(the model is total) — PROVIDED no existing group's identity equals
`generateTokenId(token)` (and the Index respects the 100-group cap).  When
an existing group does carry that identity — possible because the identity
hashes only the payload and signature segments, ignoring the header — the
record IS appended to it (see the counterexample). -/
theorem claim_C4 (now : Int) (token : JStr) (req : RequestInfo)
    (gs : List JWTTokenGroup) (hparse : parseJWT token = none)
    (hnomatch : ∀ g ∈ gs, g.tokenId ≠ generateTokenId token)
    (hlen : gs.length ≤ MAX_TOKEN_GROUPS) :
    storeTokenData now token req gs = gs := by
  have hfind : jsFindIndex (fun g => g.tokenId == generateTokenId token) gs = none :=
    jsFindIndex_eq_none _ _ (fun g hg => beq_eq_false_iff_ne.mpr (hnomatch g hg))
  unfold storeTokenData createTokenGroup
  simp only [hfind, hparse]
  rw [if_neg (by omega)]

/-- A group that cannot be matched by the `"x"` upsert. -/
def gOther : JWTTokenGroup :=
  { tokenId := str "ab", raw := str "r", header := Json.obj .nil
    payload := Json.obj .nil, signature := str "s", expiryDate := none
    isExpired := false, requests := [], firstSeen := 0, lastSeen := 0
    isValid := true }

/-- C4 witness: upserting the undecodable credential `"x"` over an Index
whose only group has a different identity changes nothing. -/
theorem claim_C4_witness :
    storeTokenData 7 (str "x")
      { id := str "w", url := str "u", method := str "GET"
        abbreviatedPath := str "p", timestamp := 3 } [gOther] = [gOther] :=
  claim_C4 7 (str "x") _ [gOther] (by decide) (by decide) (by decide)

/-- A concrete valid credential: header `{}` (`"e30"`), payload `1` (`"MQ"`),
signature `"s"`. -/
def vTok : JStr := str "e30.MQ.s"

/-- Decoded form of `vTok`. -/
def pVTok : ParsedJWT := ⟨Json.obj .nil, Json.num 1, str "s"⟩

/-- The identity of `vTok` — 16 hex characters of its digest. -/
def xTok : JStr := generateTokenId vTok

/-- First request (seeds the group). -/
def reqA : RequestInfo :=
  { id := str "a", url := str "u1", method := str "GET"
    abbreviatedPath := str "p1", timestamp := 10 }

/-- Second request (carried by the undecodable credential). -/
def reqB : RequestInfo :=
  { id := str "b", url := str "u2", method := str "POST"
    abbreviatedPath := str "p2", timestamp := 20 }

/-- Evaluating `createTokenGroup` on a parsed token, spelled out. -/
theorem createTokenGroup_eq (now : Int) (token : JStr) (req : RequestInfo)
    (parsed : ParsedJWT) (h : parseJWT token = some parsed) :
    createTokenGroup now token req = some
      { tokenId := generateTokenId token, raw := token, header := parsed.header
        payload := parsed.payload, signature := parsed.signature
        expiryDate := getExpiryDate parsed.payload
        isExpired := isTokenExpired parsed.payload now
        requests := [req], firstSeen := req.timestamp, lastSeen := req.timestamp
        isValid := true } := by
  unfold createTokenGroup
  rw [h]

/-- An upsert into the empty Index creates exactly the new group. -/
theorem storeTokenData_empty (now : Int) (token : JStr) (req : RequestInfo)
    (g : JWTTokenGroup) (h : createTokenGroup now token req = some g) :
    storeTokenData now token req [] = [g] := by
  unfold storeTokenData
  simp only [jsFindIndex, h]
  rfl

/-- An upsert into a one-group Index whose group matches the token's
identity, when the token fails to parse and the request list stays within
the cap: the request is appended and `lastSeen` updated, nothing else. -/
theorem storeTokenData_single_match (now : Int) (token : JStr) (req : RequestInfo)
    (g : JWTTokenGroup) (hmatch : (g.tokenId == generateTokenId token) = true)
    (hparse : parseJWT token = none) (hlen : g.requests.length + 1 ≤ 50) :
    storeTokenData now token req [g] =
      [{ g with requests := g.requests ++ [req], lastSeen := req.timestamp }] := by
  unfold storeTokenData
  simp only [jsFindIndex, hmatch, if_true, hparse, List.get?]
  have htrim : ¬ ((g.requests ++ [req]).length > MAX_REQUESTS_PER_GROUP) := by
    rw [List.length_append]
    simp only [MAX_REQUESTS_PER_GROUP, List.length_singleton]
    omega
  simp only [htrim, if_false, MAX_TOKEN_GROUPS]
  rfl

/-- The group created by the first (valid) upsert of the counterexample. -/
def gV : JWTTokenGroup :=
  { tokenId := generateTokenId vTok, raw := vTok, header := pVTok.header
    payload := pVTok.payload, signature := pVTok.signature
    expiryDate := getExpiryDate pVTok.payload
    isExpired := isTokenExpired pVTok.payload 0
    requests := [reqA], firstSeen := reqA.timestamp, lastSeen := reqA.timestamp
    isValid := true }

/-- C4 counterexample: the claim that a decode-failing upsert NEVER touches
the Index is false.  Starting from the empty Index, upsert the valid
credential `vTok`; its stored identity is the 16-hex string `xTok`.  Now
upsert `xTok` itself as a credential: it fails to decode (it has no dots),
yet `generateTokenId` falls back to the raw string, which matches the
stored group, so the request IS appended and the Index changes. -/
theorem claim_C4_cex :
    parseJWT xTok = none ∧
    storeTokenData 0 xTok reqB (storeTokenData 0 vTok reqA []) ≠
      storeTokenData 0 vTok reqA [] := by
  have hsplitv : splitOnDot vTok = [str "e30", str "MQ", str "s"] := by decide
  have hxsplit : splitOnDot xTok = [xTok] :=
    splitOnDot_of_no_dot _ (generateTokenId_no_dot vTok _ _ _ hsplitv)
  have hxparse : parseJWT xTok = none := by
    unfold parseJWT
    rw [hxsplit]
  have hxid : generateTokenId xTok = xTok := by
    unfold generateTokenId
    rw [hxsplit]
  have hparsev : parseJWT vTok = some pVTok := by decide
  have hfirst : storeTokenData 0 vTok reqA [] = [gV] :=
    storeTokenData_empty 0 vTok reqA gV (createTokenGroup_eq 0 vTok reqA pVTok hparsev)
  have hbeq : (gV.tokenId == generateTokenId xTok) = true := by
    rw [hxid]
    exact beq_self_eq_true xTok
  have hsecond : storeTokenData 0 xTok reqB [gV] =
      [{ gV with requests := gV.requests ++ [reqB], lastSeen := reqB.timestamp }] :=
    storeTokenData_single_match 0 xTok reqB gV hbeq hxparse (by decide)
  refine ⟨hxparse, ?_⟩
  rw [hfirst, hsecond]
  intro hcontra
  injection hcontra with h1 _
  have hreq := congrArg JWTTokenGroup.requests h1
  simpa using congrArg List.length hreq

/-! ### Properties of the per-group request sort -/

/-- Inserting is a permutation of consing. -/
theorem insertByTsDesc_perm (r : RequestInfo) (l : List RequestInfo) :
    (insertByTsDesc r l).Perm (r :: l) := by
  induction l with
  | nil => rfl
  | cons x xs ih =>
    rw [insertByTsDesc]
    split
    · rfl
    · exact (ih.cons x).trans (List.Perm.swap r x xs)

/-- The sort is a permutation. -/
theorem sortByTsDesc_perm (l : List RequestInfo) : (sortByTsDesc l).Perm l := by
  induction l with
  | nil => rfl
  | cons x xs ih => exact (insertByTsDesc_perm x (sortByTsDesc xs)).trans (ih.cons x)

/-- Inserting preserves descending timestamp order. -/
theorem insertByTsDesc_sorted (r : RequestInfo) (l : List RequestInfo)
    (h : l.Pairwise (fun a b => b.timestamp ≤ a.timestamp)) :
    (insertByTsDesc r l).Pairwise (fun a b => b.timestamp ≤ a.timestamp) := by
  induction l with
  | nil => simp [insertByTsDesc]
  | cons x xs ih =>
    rw [insertByTsDesc]
    rcases List.pairwise_cons.mp h with ⟨hx, hxs⟩
    split
    · rename_i hle
      refine List.pairwise_cons.mpr ⟨?_, h⟩
      intro y hy
      rcases List.mem_cons.mp hy with rfl | hy
      · exact hle
      · exact le_trans (hx y hy) hle
    · rename_i hgt
      refine List.pairwise_cons.mpr ⟨?_, ih hxs⟩
      intro y hy
      rcases List.mem_cons.mp ((insertByTsDesc_perm r xs).mem_iff.mp hy) with rfl | hy
      · omega
      · exact hx y hy

/-- The sort output is in descending timestamp order. -/
theorem sortByTsDesc_sorted (l : List RequestInfo) :
    (sortByTsDesc l).Pairwise (fun a b => b.timestamp ≤ a.timestamp) := by
  induction l with
  | nil => simp [sortByTsDesc]
  | cons x xs ih => exact insertByTsDesc_sorted x _ ih

/-- A descending list and a STRICTLY descending list that are permutations
of each other coincide. -/
theorem perm_sorted_strict_eq (l1 l2 : List RequestInfo) (hperm : l1.Perm l2)
    (h1 : l1.Pairwise (fun a b => b.timestamp ≤ a.timestamp))
    (h2 : l2.Pairwise (fun a b => b.timestamp < a.timestamp)) : l1 = l2 := by
  induction l1 generalizing l2 with
  | nil => exact hperm.nil_eq
  | cons a t1 ih =>
    cases l2 with
    | nil => exact absurd hperm.symm.nil_eq (by simp)
    | cons b t2 =>
      rcases List.pairwise_cons.mp h1 with ⟨ha, ht1⟩
      rcases List.pairwise_cons.mp h2 with ⟨hb, ht2⟩
      by_cases hab : a = b
      · subst hab
        rw [ih t2 hperm.cons_inv ht1 ht2]
      · exfalso
        have hain : a ∈ t2 := by
          rcases List.mem_cons.mp (hperm.mem_iff.mp (List.mem_cons_self a t1)) with h | h
          · exact absurd h hab
          · exact h
        have hbin : b ∈ t1 := by
          rcases List.mem_cons.mp (hperm.symm.mem_iff.mp (List.mem_cons_self b t2)) with h | h
          · exact absurd h.symm hab
          · exact h
        have h1' := ha b hbin
        have h2' := hb a hain
        omega

/-- The sort is determined: it returns the unique strictly-descending
permutation when timestamps are distinct. -/
theorem sortByTsDesc_eq (l m : List RequestInfo) (hperm : l.Perm m)
    (hm : m.Pairwise (fun a b => b.timestamp < a.timestamp)) :
    sortByTsDesc l = m :=
  perm_sorted_strict_eq _ _ ((sortByTsDesc_perm l).trans hperm)
    (sortByTsDesc_sorted l) hm

/-! ### Iterated upserts of one valid credential -/

/-- Upsert into a matching one-group Index, parse succeeding, staying within
the per-group request cap: plain append. -/
theorem store_match_small (now : Int) (token : JStr) (req : RequestInfo)
    (g : JWTTokenGroup) (parsed : ParsedJWT)
    (hmatch : (g.tokenId == generateTokenId token) = true)
    (hp : parseJWT token = some parsed)
    (hlen : g.requests.length + 1 ≤ 50) :
    storeTokenData now token req [g] =
      [{ g with requests := g.requests ++ [req], lastSeen := req.timestamp,
                isExpired := isTokenExpired parsed.payload now }] := by
  unfold storeTokenData
  simp only [jsFindIndex, hmatch, if_true, hp, List.get?]
  have htrim : ¬ ((g.requests ++ [req]).length > MAX_REQUESTS_PER_GROUP) := by
    rw [List.length_append]
    simp only [MAX_REQUESTS_PER_GROUP, List.length_singleton]
    omega
  simp only [htrim, if_false, MAX_TOKEN_GROUPS]
  rfl

/-- Upsert into a matching one-group Index, parse succeeding, exceeding the
per-group request cap: append, stable-sort descending, keep the newest 50. -/
theorem store_match_big (now : Int) (token : JStr) (req : RequestInfo)
    (g : JWTTokenGroup) (parsed : ParsedJWT)
    (hmatch : (g.tokenId == generateTokenId token) = true)
    (hp : parseJWT token = some parsed)
    (hlen : g.requests.length + 1 > 50) :
    storeTokenData now token req [g] =
      [{ g with requests := (sortByTsDesc (g.requests ++ [req])).take 50,
                lastSeen := req.timestamp,
                isExpired := isTokenExpired parsed.payload now }] := by
  unfold storeTokenData
  simp only [jsFindIndex, hmatch, if_true, hp, List.get?]
  have htrim : (g.requests ++ [req]).length > MAX_REQUESTS_PER_GROUP := by
    rw [List.length_append]
    simp only [MAX_REQUESTS_PER_GROUP, List.length_singleton]
    omega
  simp only [htrim, if_true, MAX_TOKEN_GROUPS]
  rfl

/-- The group reached after upserting the requests `reqs` (oldest first) of
one valid credential into an empty Index: requests stay in append order
until there are more than 50, after which the newest 50 are kept
newest-first. -/
def iterGroup (now : Int) (token : JStr) (parsed : ParsedJWT)
    (reqs : List RequestInfo) : JWTTokenGroup :=
  { tokenId := generateTokenId token
    raw := token
    header := parsed.header
    payload := parsed.payload
    signature := parsed.signature
    expiryDate := getExpiryDate parsed.payload
    isExpired := isTokenExpired parsed.payload now
    requests := if reqs.length ≤ 50 then reqs
      else (reqs.drop (reqs.length - 50)).reverse
    firstSeen := ((reqs.head?).map (·.timestamp)).getD 0
    lastSeen := ((reqs.getLast?).map (·.timestamp)).getD 0
    isValid := true }

/-- Folding the Index upsert over a request sequence. -/
def upsertFold (now : Int) (token : JStr) (reqs : List RequestInfo) :
    List JWTTokenGroup :=
  reqs.foldl (fun acc r => storeTokenData now token r acc) []

/-- Characterization of iterated upserts of one valid credential with
strictly increasing request timestamps. -/
theorem upsertFold_eq (now : Int) (token : JStr) (parsed : ParsedJWT)
    (hp : parseJWT token = some parsed) (reqs : List RequestInfo)
    (hne : reqs ≠ [])
    (hinc : reqs.Pairwise (fun x y => x.timestamp < y.timestamp)) :
    upsertFold now token reqs = [iterGroup now token parsed reqs] := by
  induction reqs using List.reverseRecOn with
  | nil => exact absurd rfl hne
  | append_singleton l r ih =>
    rw [upsertFold, List.foldl_append, List.foldl_cons, List.foldl_nil]
    rcases eq_or_ne l [] with rfl | hlne
    · rw [List.foldl_nil,
        storeTokenData_empty now token r _ (createTokenGroup_eq now token r parsed hp)]
      simp [iterGroup]
    · have hincl : l.Pairwise (fun x y => x.timestamp < y.timestamp) :=
        (List.pairwise_append.mp hinc).1
      have hlast : ∀ x ∈ l, x.timestamp < r.timestamp := by
        intro x hx
        exact (List.pairwise_append.mp hinc).2.2 x hx r (List.mem_singleton_self r)
      have hfold : l.foldl (fun acc r' => storeTokenData now token r' acc) [] =
          [iterGroup now token parsed l] := ih hlne hincl
      rw [hfold]
      have hmatch : ((iterGroup now token parsed l).tokenId ==
          generateTokenId token) = true := beq_self_eq_true _
      have hlr : (l ++ [r]).length = l.length + 1 := by
        rw [List.length_append, List.length_cons, List.length_nil]
      rcases Nat.lt_or_ge l.length 50 with hsmall | hbig
      · -- request list stays within the cap: plain append
        have hcondl : l.length ≤ 50 := by omega
        rw [store_match_small now token r _ parsed hmatch hp
          (by simp only [iterGroup]; rw [if_pos hcondl]; omega)]
        have hlen2 : (l ++ [r]).length ≤ 50 := by omega
        simp only [iterGroup, if_pos hcondl, if_pos hlen2,
          List.head?_append_of_ne_nil _ hlne, List.getLast?_concat,
          Option.map_some', Option.getD_some]
      · -- the append overflows the cap: sort descending and truncate
        have hcondlr : ¬ ((l ++ [r]).length ≤ 50) := by omega
        rcases Nat.eq_or_lt_of_le hbig with hfifty | hover
        · -- exactly 50 requests before this append, still in append order
          have hcondl : l.length ≤ 50 := by omega
          have hreqs : (iterGroup now token parsed l).requests = l := by
            simp only [iterGroup]
            rw [if_pos hcondl]
          rw [store_match_big now token r _ parsed hmatch hp (by rw [hreqs]; omega)]
          have hsort : sortByTsDesc ((iterGroup now token parsed l).requests ++ [r]) =
              r :: l.reverse := by
            rw [hreqs]
            refine sortByTsDesc_eq _ _ ((List.perm_append_singleton r l).trans
              ((l.reverse_perm).symm.cons r)) ?_
            refine List.pairwise_cons.mpr ⟨?_, ?_⟩
            · intro x hx
              exact hlast x (List.mem_reverse.mp hx)
            · rw [List.pairwise_reverse]
              exact hincl
          rw [hsort]
          have hreqeq : (r :: l.reverse).take 50 =
              ((l ++ [r]).drop ((l ++ [r]).length - 50)).reverse := by
            have h1 : (l ++ [r]).length - 50 = 1 := by omega
            rw [h1, List.drop_append_of_le_length (by omega), List.reverse_append,
              List.reverse_drop, show (50 : Nat) = 49 + 1 from rfl,
              List.take_succ_cons]
            have h2 : l.length - 1 = 49 := by omega
            rw [h2]
            rfl
          simp only [iterGroup, if_pos hcondl, if_neg hcondlr, hreqeq,
            List.getLast?_concat, List.head?_append_of_ne_nil _ hlne,
            Option.map_some', Option.getD_some]
        · -- already 50 kept requests, newest first
          have hcondl : ¬ (l.length ≤ 50) := by omega
          have hreqs : (iterGroup now token parsed l).requests =
              (l.drop (l.length - 50)).reverse := by
            simp only [iterGroup]
            rw [if_neg hcondl]
          have hXlen : ((l.drop (l.length - 50)).reverse).length = 50 := by
            simp only [List.length_reverse, List.length_drop]
            omega
          rw [store_match_big now token r _ parsed hmatch hp
            (by rw [hreqs, hXlen]; omega)]
          have hsort : sortByTsDesc ((iterGroup now token parsed l).requests ++ [r]) =
              r :: (l.drop (l.length - 50)).reverse := by
            rw [hreqs]
            refine sortByTsDesc_eq _ _ (List.perm_append_singleton r _) ?_
            refine List.pairwise_cons.mpr ⟨?_, ?_⟩
            · intro x hx
              exact hlast x (List.mem_of_mem_drop (List.mem_reverse.mp hx))
            · rw [List.pairwise_reverse]
              exact hincl.sublist (List.drop_sublist _ _)
          rw [hsort]
          have hreqeq : (r :: (l.drop (l.length - 50)).reverse).take 50 =
              ((l ++ [r]).drop ((l ++ [r]).length - 50)).reverse := by
            have h3 : (l ++ [r]).length - 50 = l.length - 49 := by omega
            rw [h3, List.drop_append_of_le_length (by omega), List.reverse_append,
              List.reverse_drop, List.reverse_drop,
              show (50 : Nat) = 49 + 1 from rfl, List.take_succ_cons,
              List.take_take]
            have h4 : min 49 (l.length - (l.length - 50)) = l.length - (l.length - 49) := by
              omega
            rw [h4]
            rfl
          simp only [iterGroup, if_neg hcondl, if_neg hcondlr, hreqeq,
            List.getLast?_concat, List.head?_append_of_ne_nil _ hlne,
            Option.map_some', Option.getD_some]

/-! ### C7: per-group request cap -/

/-- C7: after 60 upserts of one valid credential (fresh, strictly increasing
observation timestamps), the single resulting group holds exactly 50
requests — the 50 most recent — and every dropped request is older than
every kept one. -/
theorem claim_C7 (now : Int) (token : JStr) (parsed : ParsedJWT)
    (hp : parseJWT token = some parsed) (reqs : List RequestInfo)
    (hlen : reqs.length = 60)
    (hinc : reqs.Pairwise (fun x y => x.timestamp < y.timestamp)) :
    ∃ g, upsertFold now token reqs = [g] ∧ g.requests.length = 50 ∧
      g.requests = (reqs.drop 10).reverse ∧
      (∀ r1 ∈ reqs, r1 ∉ g.requests → ∀ r2 ∈ g.requests,
        r1.timestamp < r2.timestamp) := by
  have hne : reqs ≠ [] := by
    intro h
    rw [h] at hlen
    exact absurd hlen (by decide)
  refine ⟨iterGroup now token parsed reqs,
    upsertFold_eq now token parsed hp reqs hne hinc, ?_⟩
  have hreq : (iterGroup now token parsed reqs).requests = (reqs.drop 10).reverse := by
    simp only [iterGroup, hlen]
    rw [if_neg (by omega)]
  refine ⟨?_, hreq, ?_⟩
  · rw [hreq, List.length_reverse, List.length_drop, hlen]
  · intro r1 h1 hnot r2 h2
    rw [hreq, List.mem_reverse] at h2 hnot
    have h1' : r1 ∈ reqs.take 10 ++ reqs.drop 10 := by
      rw [List.take_append_drop]
      exact h1
    rcases List.mem_append.mp h1' with h1t | h1d
    · have hsplit := hinc
      rw [← List.take_append_drop 10 reqs] at hsplit
      exact (List.pairwise_append.mp hsplit).2.2 r1 h1t r2 h2
    · exact absurd h1d hnot

/-- The 60 concrete requests used by the C7 and C10 witnesses. -/
def reqsW : List RequestInfo :=
  (List.range 60).map fun n =>
    { id := str "r", url := str "u", method := str "GET"
      abbreviatedPath := str "p", timestamp := (n : Int) }

/-- C7 witness: the 60 concrete upserts leave exactly the newest 50. -/
theorem claim_C7_witness :
    ∃ g, upsertFold 0 vTok reqsW = [g] ∧ g.requests.length = 50 ∧
      g.requests = (reqsW.drop 10).reverse ∧
      (∀ r1 ∈ reqsW, r1 ∉ g.requests → ∀ r2 ∈ g.requests,
        r1.timestamp < r2.timestamp) :=
  claim_C7 0 vTok pVTok (by decide) reqsW (by decide) (by decide)

/-! ### C10: ordering of a group's request list flips at the cap -/

/-- C10: while at most 50 upserts of one valid credential have been applied,
the group's request list is in chronological append order (oldest first);
as soon as the prefix length `k` exceeds 50, the list is re-sorted and
truncated, and from then on it is the newest 50 in newest-first order — the
observable ordering reverses exactly when the per-group cap is first
exceeded. -/
theorem claim_C10 (now : Int) (token : JStr) (parsed : ParsedJWT)
    (hp : parseJWT token = some parsed) (reqs : List RequestInfo)
    (hinc : reqs.Pairwise (fun x y => x.timestamp < y.timestamp))
    (k : Nat) (hk1 : 1 ≤ k) (hk2 : k ≤ reqs.length) :
    ∃ g, upsertFold now token (reqs.take k) = [g] ∧
      (k ≤ 50 → g.requests = reqs.take k) ∧
      (50 < k → g.requests = ((reqs.take k).drop (k - 50)).reverse) := by
  have htk : (reqs.take k).length = k := by
    rw [List.length_take]
    omega
  have hne : reqs.take k ≠ [] := by
    intro h
    have := congrArg List.length h
    rw [htk] at this
    simp at this
    omega
  have hinck : (reqs.take k).Pairwise (fun x y => x.timestamp < y.timestamp) :=
    hinc.sublist (List.take_sublist k reqs)
  refine ⟨iterGroup now token parsed (reqs.take k),
    upsertFold_eq now token parsed hp _ hne hinck, ?_, ?_⟩
  · intro hk50
    simp only [iterGroup, htk]
    rw [if_pos hk50]
  · intro hk50
    simp only [iterGroup, htk]
    rw [if_neg (by omega)]

/-- C10 witness: with the 60 concrete requests, at `k = 50` the list is the
50 requests in append order, and at `k = 51` it is the newest 50,
newest-first. -/
theorem claim_C10_witness :
    (∃ g, upsertFold 0 vTok (reqsW.take 50) = [g] ∧
      (50 ≤ 50 → g.requests = reqsW.take 50) ∧
      (50 < 50 → g.requests = ((reqsW.take 50).drop (50 - 50)).reverse)) ∧
    (∃ g, upsertFold 0 vTok (reqsW.take 51) = [g] ∧
      (51 ≤ 50 → g.requests = reqsW.take 51) ∧
      (50 < 51 → g.requests = ((reqsW.take 51).drop (51 - 50)).reverse)) :=
  ⟨claim_C10 0 vTok pVTok (by decide) reqsW (by decide) 50 (by decide) (by decide),
   claim_C10 0 vTok pVTok (by decide) reqsW (by decide) 51 (by decide) (by decide)⟩

/-! ### C8: lastSeen is the maximum observation instant -/

/-- The updated form of a matched group (the source's `existingGroup` after
push / `lastSeen` / `isExpired` / trim). -/
def updatedGroup (now : Int) (token : JStr) (req : RequestInfo)
    (g : JWTTokenGroup) : JWTTokenGroup :=
  let g1 := { g with requests := g.requests ++ [req], lastSeen := req.timestamp }
  let g2 :=
    match parseJWT token with
    | some parsed => { g1 with isExpired := isTokenExpired parsed.payload now }
    | none => g1
  if g2.requests.length > MAX_REQUESTS_PER_GROUP then
    { g2 with requests := (sortByTsDesc g2.requests).take MAX_REQUESTS_PER_GROUP }
  else g2

/-- An upsert that finds a matching group updates it in place (and the
truncation to the group cap is a no-op on an Index within the cap). -/
theorem storeTokenData_found (now : Int) (token : JStr) (req : RequestInfo)
    (gs : List JWTTokenGroup) (i : Nat) (g : JWTTokenGroup)
    (hfind : jsFindIndex (fun g0 => g0.tokenId == generateTokenId token) gs = some i)
    (hget : gs.get? i = some g) (hlen : gs.length ≤ MAX_TOKEN_GROUPS) :
    storeTokenData now token req gs = gs.set i (updatedGroup now token req g) := by
  unfold storeTokenData updatedGroup
  simp only [hfind, hget]
  rw [if_neg (by rw [List.length_set]; omega)]

/-- In the trimmed request list, the new request's timestamp is present and
maximal. -/
theorem trimmed_props (old : List RequestInfo) (req : RequestInfo)
    (hmono : ∀ r ∈ old, r.timestamp ≤ req.timestamp) :
    req.timestamp ∈ ((sortByTsDesc (old ++ [req])).take 50).map (·.timestamp) ∧
    (∀ t ∈ ((sortByTsDesc (old ++ [req])).take 50).map (·.timestamp),
      t ≤ req.timestamp) := by
  have hperm := sortByTsDesc_perm (old ++ [req])
  have hall : ∀ x ∈ sortByTsDesc (old ++ [req]), x.timestamp ≤ req.timestamp := by
    intro x hx
    rcases List.mem_append.mp (hperm.mem_iff.mp hx) with hxo | hxr
    · exact hmono x hxo
    · rw [List.mem_singleton.mp hxr]
  rcases hS : sortByTsDesc (old ++ [req]) with _ | ⟨h, tS⟩
  · exfalso
    have := hperm.length_eq
    rw [hS] at this
    simp at this
  · have hsorted := sortByTsDesc_sorted (old ++ [req])
    rw [hS] at hsorted
    have hreqmem : req ∈ h :: tS := by
      rw [← hS]
      exact hperm.mem_iff.mpr (List.mem_append.mpr (Or.inr (List.mem_singleton_self req)))
    have hhts : h.timestamp = req.timestamp := by
      have h1 : h.timestamp ≤ req.timestamp := hall h (hS ▸ List.mem_cons_self h tS)
      have h2 : req.timestamp ≤ h.timestamp := by
        rcases List.mem_cons.mp hreqmem with rfl | hmem
        · rfl
        · exact (List.pairwise_cons.mp hsorted).1 req hmem
      omega
    constructor
    · rw [show (50 : Nat) = 49 + 1 from rfl, List.take_succ_cons]
      exact List.mem_map.mpr ⟨h, List.mem_cons_self h _, hhts⟩
    · intro t ht
      obtain ⟨x, hx, rfl⟩ := List.mem_map.mp ht
      exact hall x (hS ▸ List.take_subset _ _ hx)

/-- In the untrimmed appended request list, the new request's timestamp is
present and maximal. -/
theorem appended_props (old : List RequestInfo) (req : RequestInfo)
    (hmono : ∀ r ∈ old, r.timestamp ≤ req.timestamp) :
    req.timestamp ∈ ((old ++ [req]).map (·.timestamp)) ∧
    (∀ t ∈ (old ++ [req]).map (·.timestamp), t ≤ req.timestamp) := by
  constructor
  · exact List.mem_map.mpr ⟨req,
      List.mem_append.mpr (Or.inr (List.mem_singleton_self req)), rfl⟩
  · intro t ht
    obtain ⟨x, hx, rfl⟩ := List.mem_map.mp ht
    rcases List.mem_append.mp hx with hxo | hxr
    · exact hmono x hxo
    · rw [List.mem_singleton.mp hxr]

/-- Field facts about the updated form of a matched group. -/
theorem updatedGroup_props (now : Int) (token : JStr) (req : RequestInfo)
    (g : JWTTokenGroup)
    (hmono : ∀ r ∈ g.requests, r.timestamp ≤ req.timestamp) :
    (updatedGroup now token req g).lastSeen = req.timestamp ∧
    (updatedGroup now token req g).firstSeen = g.firstSeen ∧
    (updatedGroup now token req g).lastSeen ∈
      (updatedGroup now token req g).requests.map (·.timestamp) ∧
    (∀ t ∈ (updatedGroup now token req g).requests.map (·.timestamp),
      t ≤ (updatedGroup now token req g).lastSeen) := by
  simp only [updatedGroup]
  rcases parseJWT token with _ | parsed
  · split
    · rcases trimmed_props g.requests req hmono with ⟨hmem, hmax⟩
      exact ⟨rfl, rfl, hmem, hmax⟩
    · rcases appended_props g.requests req hmono with ⟨hmem, hmax⟩
      exact ⟨rfl, rfl, hmem, hmax⟩
  · split
    · rcases trimmed_props g.requests req hmono with ⟨hmem, hmax⟩
      exact ⟨rfl, rfl, hmem, hmax⟩
    · rcases appended_props g.requests req hmono with ⟨hmem, hmax⟩
      exact ⟨rfl, rfl, hmem, hmax⟩

/-- C8: (update) after any upsert that finds an existing group and carries a
fresh request (its timestamp at least every stored one), the touched group's
`lastSeen` equals the new request's timestamp, which is the maximum
`observedAt` over its request list; `firstSeen` is untouched.  (creation)
at group creation, `firstSeen` and `lastSeen` both equal the seeding
request's timestamp. -/
theorem claim_C8 :
    (∀ (now : Int) (token : JStr) (req : RequestInfo) (gs : List JWTTokenGroup)
      (i : Nat) (g : JWTTokenGroup),
      jsFindIndex (fun g0 => g0.tokenId == generateTokenId token) gs = some i →
      gs.get? i = some g →
      (∀ r ∈ g.requests, r.timestamp ≤ req.timestamp) →
      gs.length ≤ MAX_TOKEN_GROUPS →
      ∃ g', storeTokenData now token req gs = gs.set i g' ∧
        g'.lastSeen = req.timestamp ∧
        g'.firstSeen = g.firstSeen ∧
        g'.lastSeen ∈ g'.requests.map (·.timestamp) ∧
        (∀ t ∈ g'.requests.map (·.timestamp), t ≤ g'.lastSeen)) ∧
    (∀ (now : Int) (token : JStr) (req : RequestInfo) (g : JWTTokenGroup),
      createTokenGroup now token req = some g →
      g.firstSeen = req.timestamp ∧ g.lastSeen = req.timestamp ∧
      g.requests = [req]) := by
  constructor
  · intro now token req gs i g hfind hget hmono hlen
    exact ⟨updatedGroup now token req g,
      storeTokenData_found now token req gs i g hfind hget hlen,
      updatedGroup_props now token req g hmono⟩
  · intro now token req g hcreate
    unfold createTokenGroup at hcreate
    rcases hq : parseJWT token with _ | parsed
    · rw [hq] at hcreate
      exact Option.noConfusion hcreate
    · rw [hq] at hcreate
      obtain rfl := (Option.some.injEq _ _).mp hcreate
      exact ⟨rfl, rfl, rfl⟩

/-- C8 witness: on a concrete matched upsert the group's `lastSeen` becomes
the maximal observation instant, and on concrete creation both seen-fields
equal the seeding request's timestamp. -/
theorem claim_C8_witness :
    (∃ g', storeTokenData 0 vTok reqB [gV] = [gV].set 0 g' ∧
      g'.lastSeen = reqB.timestamp ∧
      g'.firstSeen = gV.firstSeen ∧
      g'.lastSeen ∈ g'.requests.map (·.timestamp) ∧
      (∀ t ∈ g'.requests.map (·.timestamp), t ≤ g'.lastSeen)) ∧
    (gV.firstSeen = reqA.timestamp ∧ gV.lastSeen = reqA.timestamp ∧
      gV.requests = [reqA]) := by
  have hfind : jsFindIndex (fun g0 => g0.tokenId == generateTokenId vTok) [gV] =
      some 0 := by
    have hb : (gV.tokenId == generateTokenId vTok) = true := beq_self_eq_true _
    simp [jsFindIndex, hb]
  constructor
  · exact claim_C8.1 0 vTok reqB [gV] 0 gV hfind rfl (by decide) (by decide)
  · exact claim_C8.2 0 vTok reqA gV (createTokenGroup_eq 0 vTok reqA pVTok (by decide))

/-! ### C2: group-count cap and most-recent-first order -/

/-- Truncating the appended tail before or after appending is the same. -/
theorem take_append_take {α : Type} (A B : List α) (n : Nat) :
    (A ++ B.take n).take n = (A ++ B).take n := by
  rw [List.take_append_eq_append_take, List.take_append_eq_append_take,
    List.take_take, Nat.min_eq_left (Nat.sub_le n A.length)]

/-- An upsert of a decodable credential whose identity matches no group
prepends the new group and truncates to the cap: on the level of identity
sequences, cons then take. -/
theorem storeTokenData_new (now : Int) (token : JStr) (req : RequestInfo)
    (gs : List JWTTokenGroup) (hps : (parseJWT token).isSome)
    (hnomatch : ∀ g ∈ gs, g.tokenId ≠ generateTokenId token)
    (hlen : gs.length ≤ MAX_TOKEN_GROUPS) :
    (storeTokenData now token req gs).map (·.tokenId) =
      (generateTokenId token :: gs.map (·.tokenId)).take MAX_TOKEN_GROUPS ∧
    (storeTokenData now token req gs).length = min (gs.length + 1) MAX_TOKEN_GROUPS := by
  obtain ⟨parsed, hp⟩ := Option.isSome_iff_exists.mp hps
  have hfind : jsFindIndex (fun g0 => g0.tokenId == generateTokenId token) gs = none :=
    jsFindIndex_eq_none _ _ (fun g hg => beq_eq_false_iff_ne.mpr (hnomatch g hg))
  unfold storeTokenData
  simp only [hfind, createTokenGroup_eq now token req parsed hp]
  by_cases hc : gs.length + 1 > MAX_TOKEN_GROUPS
  · rw [if_pos (by rw [List.length_cons]; omega)]
    constructor
    · rw [List.map_take, List.map_cons]
    · rw [List.length_take, List.length_cons]
      omega
  · rw [if_neg (by rw [List.length_cons]; omega)]
    constructor
    · rw [List.take_of_length_le (by rw [List.length_cons, List.length_map]; omega),
        List.map_cons]
    · rw [List.length_cons]
      omega

/-- Identity sequence after folding upserts of distinct decodable
credentials over an Index none of them matches. -/
theorem upsertFoldMulti_ids (now : Int) (inputs : List (JStr × RequestInfo)) :
    ∀ (gs : List JWTTokenGroup),
      (∀ i ∈ inputs, (parseJWT i.1).isSome) →
      ((inputs.map fun i => generateTokenId i.1).Pairwise (· ≠ ·)) →
      (∀ i ∈ inputs, ∀ g ∈ gs, g.tokenId ≠ generateTokenId i.1) →
      gs.length ≤ MAX_TOKEN_GROUPS →
      (inputs.foldl (fun acc i => storeTokenData now i.1 i.2 acc) gs).map (·.tokenId) =
        ((inputs.map fun i => generateTokenId i.1).reverse ++
          gs.map (·.tokenId)).take MAX_TOKEN_GROUPS ∧
      (inputs.foldl (fun acc i => storeTokenData now i.1 i.2 acc) gs).length =
        min (inputs.length + gs.length) MAX_TOKEN_GROUPS := by
  induction inputs with
  | nil =>
    intro gs _ _ _ hlen
    constructor
    · rw [List.map_nil, List.reverse_nil, List.nil_append, List.foldl_nil,
        List.take_of_length_le (by rw [List.length_map]; omega)]
    · rw [List.foldl_nil, List.length_nil]
      omega
  | cons p rest ih =>
    intro gs hparse hdist hnomatch hlen
    rw [List.foldl_cons]
    obtain ⟨hids', hlen'⟩ := storeTokenData_new now p.1 p.2 gs
      (hparse p (List.mem_cons_self p rest))
      (fun g hg => hnomatch p (List.mem_cons_self p rest) g hg) hlen
    rw [List.map_cons] at hdist
    have hlen'' : (storeTokenData now p.1 p.2 gs).length ≤ MAX_TOKEN_GROUPS := by
      rw [hlen']
      omega
    have hnomatch' : ∀ i ∈ rest, ∀ g ∈ storeTokenData now p.1 p.2 gs,
        g.tokenId ≠ generateTokenId i.1 := by
      intro i hi g hg hcontra
      have hmem : g.tokenId ∈ generateTokenId p.1 :: gs.map (·.tokenId) := by
        have hmem0 : g.tokenId ∈ (storeTokenData now p.1 p.2 gs).map (·.tokenId) :=
          List.mem_map_of_mem _ hg
        rw [hids'] at hmem0
        exact List.take_subset _ _ hmem0
      rcases List.mem_cons.mp hmem with heq | hmemids
      · rw [hcontra] at heq
        exact (List.pairwise_cons.mp hdist).1 (generateTokenId i.1)
          (List.mem_map_of_mem _ hi) heq.symm
      · obtain ⟨g0, hg0, hgid⟩ := List.mem_map.mp hmemids
        exact hnomatch i (List.mem_cons_of_mem p hi) g0 hg0 (by rw [hgid, hcontra])
    obtain ⟨hfin_ids, hfin_len⟩ := ih (storeTokenData now p.1 p.2 gs)
      (fun i hi => hparse i (List.mem_cons_of_mem p hi))
      (List.pairwise_cons.mp hdist).2 hnomatch' hlen''
    constructor
    · rw [hfin_ids, hids', take_append_take, List.map_cons, List.reverse_cons,
        List.append_assoc, List.singleton_append]
    · rw [hfin_len, hlen', List.length_cons]
      omega

/-- C2: starting from the empty Index, any sequence of more than 100 upserts
carrying distinct decodable credential identities leaves exactly 100 groups,
namely the 100 most recently inserted identities in most-recent-first
order (each insertion is at the front; the tail beyond the cap is dropped
regardless of the dropped groups' contents). -/
theorem claim_C2 (now : Int) (inputs : List (JStr × RequestInfo))
    (hparse : ∀ i ∈ inputs, (parseJWT i.1).isSome)
    (hdist : (inputs.map fun i => generateTokenId i.1).Pairwise (· ≠ ·))
    (hlen : 100 < inputs.length) :
    (inputs.foldl (fun acc i => storeTokenData now i.1 i.2 acc) []).length = 100 ∧
    (inputs.foldl (fun acc i => storeTokenData now i.1 i.2 acc) []).map (·.tokenId) =
      ((inputs.map fun i => generateTokenId i.1).reverse).take 100 := by
  obtain ⟨hids, hlenf⟩ := upsertFoldMulti_ids now inputs [] hparse hdist
    (by intro i _ g hg; exact absurd hg (List.not_mem_nil g)) (by simp)
  constructor
  · rw [hlenf]
    simp only [List.length_nil, MAX_TOKEN_GROUPS]
    omega
  · rw [hids, List.map_nil, List.append_nil]
    rfl

/-- Decimal digits of a number, as a string. -/
def natDigits (n : Nat) : JStr := (toString n).data

/-- A list of 101 upsert inputs with distinct decodable credentials (same header and
payload, distinct signature segments). -/
def inputs101 : List (JStr × RequestInfo) :=
  (List.range 101).map fun n =>
    (str "e30.MQ.s" ++ natDigits n,
     { id := str "i", url := str "u", method := str "GET"
       abbreviatedPath := str "p", timestamp := (n : Int) })

/-- The 101 identities of `inputs101` (SHA-256 prefixes). -/
def ids101 : List JStr :=
  [
    str "d7ba4f01bde9d5e0",
    str "755c82edacfe27bd",
    str "3d35ad7f0fa1b458",
    str "123aba146a3580c5",
    str "af2d674ce2dbe239",
    str "c4279ac342f8cf12",
    str "76efa8d33db967d2",
    str "569c2109dbe0f30f",
    str "726a95765d9eff76",
    str "8585a099bd9f5cff",
    str "1a4c4ea8b7b8dd23",
    str "e627feaf7ee13cdb",
    str "bde583b75aaf51d8",
    str "6b2d1015cdd6c030",
    str "cf938826fbd5553c",
    str "befa7646a6f0ea28",
    str "1aceeb5c02d83cc1",
    str "53e30a34965bb76e",
    str "a71d05d337b5255d",
    str "58a87d93740a9259",
    str "9833d160b122dbe2",
    str "c1df4aca15638a6e",
    str "2d9d82d63221697e",
    str "edede0e77bde6b95",
    str "bd53e91affa8413a",
    str "36ea594b0946ecf4",
    str "be841920f3a5a1a6",
    str "8b2f6d5f5b2e8f48",
    str "2c2cf404ed27fc17",
    str "d97f2cc288f69141",
    str "5b30c013d909f967",
    str "605de89ed7b3cf39",
    str "3ca750f5d954385b",
    str "69e4c4a4dd2f0cb9",
    str "f7a567152cefe966",
    str "d177d65154478399",
    str "dec866a6fb404df1",
    str "c4651e5dcbe4ae22",
    str "5aa62e5a83d8380f",
    str "ee080793bd034f22",
    str "2d582af0934d4c3c",
    str "0c32f65856f491e9",
    str "7ce5611c34015e22",
    str "9bbe8c1e22523684",
    str "ebbbb397db875e1e",
    str "93dc7781113d9edb",
    str "24aff314cb6536c0",
    str "d8d7d761fd3cda3a",
    str "7e937307264ecc9e",
    str "2fc2cd25bc977c47",
    str "d6b7c5df6d0d2848",
    str "460926427e4b637e",
    str "8ed892053a8ba49e",
    str "2d016a74b23dd371",
    str "cf32fb8cd9ed0322",
    str "16a13ff17741449b",
    str "a2d8ef060d3e2fcf",
    str "5410c8dab3c91e56",
    str "de4434cdceb6f4ea",
    str "1282c9ba73a1514b",
    str "aea7adc15d1766db",
    str "6052c81e626b52d9",
    str "2ae5f80975c77c8e",
    str "3aa72828235f57d6",
    str "80cb73a56d4728fc",
    str "8b9a6873ac2fe0f2",
    str "6a1bd312ae4eb076",
    str "c63f2496ec8e696d",
    str "cf06b192cd2dc52d",
    str "65b91a13fcaf9106",
    str "c0712c146a871d99",
    str "5e478aa34729b25e",
    str "52a12ed9bcabb9cb",
    str "441d044043489e69",
    str "18fed5fd97aca740",
    str "4ec1af0f5a92acaf",
    str "ea9cfbee36d23c2e",
    str "a6b42e3c13a163bc",
    str "4d51913a45e2c7eb",
    str "3a6abf297113ed11",
    str "e4e954ae0cf014eb",
    str "ec560f002adb081b",
    str "a4dcd534480928a3",
    str "fb63e1894309f14d",
    str "4f2da891c63377ff",
    str "066ea5621529c2be",
    str "23436a72d95111c8",
    str "1f8e3db79cb01930",
    str "5b60802f5ca0fd73",
    str "84f902ea8a329fec",
    str "97c0e87aed7b942e",
    str "e3c63254053f877c",
    str "37513a75682dbb9b",
    str "44e679b268a4396a",
    str "c4bb3c7bbe73837d",
    str "19bf0b1c4c197ef3",
    str "5c80c82a8115b59e",
    str "845879d14b195de3",
    str "66bc23fc4e51423f",
    str "8e15caf63b8dd266",
    str "c8a406ab879dd3e6"]

section C2Hashes

set_option maxRecDepth 100000

theorem idEq0 : generateTokenId (str "e30.MQ.s" ++ natDigits 0) = str "d7ba4f01bde9d5e0" := rfl

theorem idEq1 : generateTokenId (str "e30.MQ.s" ++ natDigits 1) = str "755c82edacfe27bd" := rfl

theorem idEq2 : generateTokenId (str "e30.MQ.s" ++ natDigits 2) = str "3d35ad7f0fa1b458" := rfl

theorem idEq3 : generateTokenId (str "e30.MQ.s" ++ natDigits 3) = str "123aba146a3580c5" := rfl

theorem idEq4 : generateTokenId (str "e30.MQ.s" ++ natDigits 4) = str "af2d674ce2dbe239" := rfl

theorem idEq5 : generateTokenId (str "e30.MQ.s" ++ natDigits 5) = str "c4279ac342f8cf12" := rfl

theorem idEq6 : generateTokenId (str "e30.MQ.s" ++ natDigits 6) = str "76efa8d33db967d2" := rfl

theorem idEq7 : generateTokenId (str "e30.MQ.s" ++ natDigits 7) = str "569c2109dbe0f30f" := rfl

theorem idEq8 : generateTokenId (str "e30.MQ.s" ++ natDigits 8) = str "726a95765d9eff76" := rfl

theorem idEq9 : generateTokenId (str "e30.MQ.s" ++ natDigits 9) = str "8585a099bd9f5cff" := rfl

theorem idEq10 : generateTokenId (str "e30.MQ.s" ++ natDigits 10) = str "1a4c4ea8b7b8dd23" := rfl

theorem idEq11 : generateTokenId (str "e30.MQ.s" ++ natDigits 11) = str "e627feaf7ee13cdb" := rfl

theorem idEq12 : generateTokenId (str "e30.MQ.s" ++ natDigits 12) = str "bde583b75aaf51d8" := rfl

theorem idEq13 : generateTokenId (str "e30.MQ.s" ++ natDigits 13) = str "6b2d1015cdd6c030" := rfl

theorem idEq14 : generateTokenId (str "e30.MQ.s" ++ natDigits 14) = str "cf938826fbd5553c" := rfl

theorem idEq15 : generateTokenId (str "e30.MQ.s" ++ natDigits 15) = str "befa7646a6f0ea28" := rfl

theorem idEq16 : generateTokenId (str "e30.MQ.s" ++ natDigits 16) = str "1aceeb5c02d83cc1" := rfl

theorem idEq17 : generateTokenId (str "e30.MQ.s" ++ natDigits 17) = str "53e30a34965bb76e" := rfl

theorem idEq18 : generateTokenId (str "e30.MQ.s" ++ natDigits 18) = str "a71d05d337b5255d" := rfl

theorem idEq19 : generateTokenId (str "e30.MQ.s" ++ natDigits 19) = str "58a87d93740a9259" := rfl

theorem idEq20 : generateTokenId (str "e30.MQ.s" ++ natDigits 20) = str "9833d160b122dbe2" := rfl

theorem idEq21 : generateTokenId (str "e30.MQ.s" ++ natDigits 21) = str "c1df4aca15638a6e" := rfl

theorem idEq22 : generateTokenId (str "e30.MQ.s" ++ natDigits 22) = str "2d9d82d63221697e" := rfl

theorem idEq23 : generateTokenId (str "e30.MQ.s" ++ natDigits 23) = str "edede0e77bde6b95" := rfl

theorem idEq24 : generateTokenId (str "e30.MQ.s" ++ natDigits 24) = str "bd53e91affa8413a" := rfl

theorem idEq25 : generateTokenId (str "e30.MQ.s" ++ natDigits 25) = str "36ea594b0946ecf4" := rfl

theorem idEq26 : generateTokenId (str "e30.MQ.s" ++ natDigits 26) = str "be841920f3a5a1a6" := rfl

theorem idEq27 : generateTokenId (str "e30.MQ.s" ++ natDigits 27) = str "8b2f6d5f5b2e8f48" := rfl

theorem idEq28 : generateTokenId (str "e30.MQ.s" ++ natDigits 28) = str "2c2cf404ed27fc17" := rfl

theorem idEq29 : generateTokenId (str "e30.MQ.s" ++ natDigits 29) = str "d97f2cc288f69141" := rfl

theorem idEq30 : generateTokenId (str "e30.MQ.s" ++ natDigits 30) = str "5b30c013d909f967" := rfl

theorem idEq31 : generateTokenId (str "e30.MQ.s" ++ natDigits 31) = str "605de89ed7b3cf39" := rfl

theorem idEq32 : generateTokenId (str "e30.MQ.s" ++ natDigits 32) = str "3ca750f5d954385b" := rfl

theorem idEq33 : generateTokenId (str "e30.MQ.s" ++ natDigits 33) = str "69e4c4a4dd2f0cb9" := rfl

theorem idEq34 : generateTokenId (str "e30.MQ.s" ++ natDigits 34) = str "f7a567152cefe966" := rfl

theorem idEq35 : generateTokenId (str "e30.MQ.s" ++ natDigits 35) = str "d177d65154478399" := rfl

theorem idEq36 : generateTokenId (str "e30.MQ.s" ++ natDigits 36) = str "dec866a6fb404df1" := rfl

theorem idEq37 : generateTokenId (str "e30.MQ.s" ++ natDigits 37) = str "c4651e5dcbe4ae22" := rfl

theorem idEq38 : generateTokenId (str "e30.MQ.s" ++ natDigits 38) = str "5aa62e5a83d8380f" := rfl

theorem idEq39 : generateTokenId (str "e30.MQ.s" ++ natDigits 39) = str "ee080793bd034f22" := rfl

theorem idEq40 : generateTokenId (str "e30.MQ.s" ++ natDigits 40) = str "2d582af0934d4c3c" := rfl

theorem idEq41 : generateTokenId (str "e30.MQ.s" ++ natDigits 41) = str "0c32f65856f491e9" := rfl

theorem idEq42 : generateTokenId (str "e30.MQ.s" ++ natDigits 42) = str "7ce5611c34015e22" := rfl

theorem idEq43 : generateTokenId (str "e30.MQ.s" ++ natDigits 43) = str "9bbe8c1e22523684" := rfl

theorem idEq44 : generateTokenId (str "e30.MQ.s" ++ natDigits 44) = str "ebbbb397db875e1e" := rfl

theorem idEq45 : generateTokenId (str "e30.MQ.s" ++ natDigits 45) = str "93dc7781113d9edb" := rfl

theorem idEq46 : generateTokenId (str "e30.MQ.s" ++ natDigits 46) = str "24aff314cb6536c0" := rfl

theorem idEq47 : generateTokenId (str "e30.MQ.s" ++ natDigits 47) = str "d8d7d761fd3cda3a" := rfl

theorem idEq48 : generateTokenId (str "e30.MQ.s" ++ natDigits 48) = str "7e937307264ecc9e" := rfl

theorem idEq49 : generateTokenId (str "e30.MQ.s" ++ natDigits 49) = str "2fc2cd25bc977c47" := rfl

theorem idEq50 : generateTokenId (str "e30.MQ.s" ++ natDigits 50) = str "d6b7c5df6d0d2848" := rfl

theorem idEq51 : generateTokenId (str "e30.MQ.s" ++ natDigits 51) = str "460926427e4b637e" := rfl

theorem idEq52 : generateTokenId (str "e30.MQ.s" ++ natDigits 52) = str "8ed892053a8ba49e" := rfl

theorem idEq53 : generateTokenId (str "e30.MQ.s" ++ natDigits 53) = str "2d016a74b23dd371" := rfl

theorem idEq54 : generateTokenId (str "e30.MQ.s" ++ natDigits 54) = str "cf32fb8cd9ed0322" := rfl

theorem idEq55 : generateTokenId (str "e30.MQ.s" ++ natDigits 55) = str "16a13ff17741449b" := rfl

theorem idEq56 : generateTokenId (str "e30.MQ.s" ++ natDigits 56) = str "a2d8ef060d3e2fcf" := rfl

theorem idEq57 : generateTokenId (str "e30.MQ.s" ++ natDigits 57) = str "5410c8dab3c91e56" := rfl

theorem idEq58 : generateTokenId (str "e30.MQ.s" ++ natDigits 58) = str "de4434cdceb6f4ea" := rfl

theorem idEq59 : generateTokenId (str "e30.MQ.s" ++ natDigits 59) = str "1282c9ba73a1514b" := rfl

theorem idEq60 : generateTokenId (str "e30.MQ.s" ++ natDigits 60) = str "aea7adc15d1766db" := rfl

theorem idEq61 : generateTokenId (str "e30.MQ.s" ++ natDigits 61) = str "6052c81e626b52d9" := rfl

theorem idEq62 : generateTokenId (str "e30.MQ.s" ++ natDigits 62) = str "2ae5f80975c77c8e" := rfl

theorem idEq63 : generateTokenId (str "e30.MQ.s" ++ natDigits 63) = str "3aa72828235f57d6" := rfl

theorem idEq64 : generateTokenId (str "e30.MQ.s" ++ natDigits 64) = str "80cb73a56d4728fc" := rfl

theorem idEq65 : generateTokenId (str "e30.MQ.s" ++ natDigits 65) = str "8b9a6873ac2fe0f2" := rfl

theorem idEq66 : generateTokenId (str "e30.MQ.s" ++ natDigits 66) = str "6a1bd312ae4eb076" := rfl

theorem idEq67 : generateTokenId (str "e30.MQ.s" ++ natDigits 67) = str "c63f2496ec8e696d" := rfl

theorem idEq68 : generateTokenId (str "e30.MQ.s" ++ natDigits 68) = str "cf06b192cd2dc52d" := rfl

theorem idEq69 : generateTokenId (str "e30.MQ.s" ++ natDigits 69) = str "65b91a13fcaf9106" := rfl

theorem idEq70 : generateTokenId (str "e30.MQ.s" ++ natDigits 70) = str "c0712c146a871d99" := rfl

theorem idEq71 : generateTokenId (str "e30.MQ.s" ++ natDigits 71) = str "5e478aa34729b25e" := rfl

theorem idEq72 : generateTokenId (str "e30.MQ.s" ++ natDigits 72) = str "52a12ed9bcabb9cb" := rfl

theorem idEq73 : generateTokenId (str "e30.MQ.s" ++ natDigits 73) = str "441d044043489e69" := rfl

theorem idEq74 : generateTokenId (str "e30.MQ.s" ++ natDigits 74) = str "18fed5fd97aca740" := rfl

theorem idEq75 : generateTokenId (str "e30.MQ.s" ++ natDigits 75) = str "4ec1af0f5a92acaf" := rfl

theorem idEq76 : generateTokenId (str "e30.MQ.s" ++ natDigits 76) = str "ea9cfbee36d23c2e" := rfl

theorem idEq77 : generateTokenId (str "e30.MQ.s" ++ natDigits 77) = str "a6b42e3c13a163bc" := rfl

theorem idEq78 : generateTokenId (str "e30.MQ.s" ++ natDigits 78) = str "4d51913a45e2c7eb" := rfl

theorem idEq79 : generateTokenId (str "e30.MQ.s" ++ natDigits 79) = str "3a6abf297113ed11" := rfl

theorem idEq80 : generateTokenId (str "e30.MQ.s" ++ natDigits 80) = str "e4e954ae0cf014eb" := rfl

theorem idEq81 : generateTokenId (str "e30.MQ.s" ++ natDigits 81) = str "ec560f002adb081b" := rfl

theorem idEq82 : generateTokenId (str "e30.MQ.s" ++ natDigits 82) = str "a4dcd534480928a3" := rfl

theorem idEq83 : generateTokenId (str "e30.MQ.s" ++ natDigits 83) = str "fb63e1894309f14d" := rfl

theorem idEq84 : generateTokenId (str "e30.MQ.s" ++ natDigits 84) = str "4f2da891c63377ff" := rfl

theorem idEq85 : generateTokenId (str "e30.MQ.s" ++ natDigits 85) = str "066ea5621529c2be" := rfl

theorem idEq86 : generateTokenId (str "e30.MQ.s" ++ natDigits 86) = str "23436a72d95111c8" := rfl

theorem idEq87 : generateTokenId (str "e30.MQ.s" ++ natDigits 87) = str "1f8e3db79cb01930" := rfl

theorem idEq88 : generateTokenId (str "e30.MQ.s" ++ natDigits 88) = str "5b60802f5ca0fd73" := rfl

theorem idEq89 : generateTokenId (str "e30.MQ.s" ++ natDigits 89) = str "84f902ea8a329fec" := rfl

theorem idEq90 : generateTokenId (str "e30.MQ.s" ++ natDigits 90) = str "97c0e87aed7b942e" := rfl

theorem idEq91 : generateTokenId (str "e30.MQ.s" ++ natDigits 91) = str "e3c63254053f877c" := rfl

theorem idEq92 : generateTokenId (str "e30.MQ.s" ++ natDigits 92) = str "37513a75682dbb9b" := rfl

theorem idEq93 : generateTokenId (str "e30.MQ.s" ++ natDigits 93) = str "44e679b268a4396a" := rfl

theorem idEq94 : generateTokenId (str "e30.MQ.s" ++ natDigits 94) = str "c4bb3c7bbe73837d" := rfl

theorem idEq95 : generateTokenId (str "e30.MQ.s" ++ natDigits 95) = str "19bf0b1c4c197ef3" := rfl

theorem idEq96 : generateTokenId (str "e30.MQ.s" ++ natDigits 96) = str "5c80c82a8115b59e" := rfl

theorem idEq97 : generateTokenId (str "e30.MQ.s" ++ natDigits 97) = str "845879d14b195de3" := rfl

theorem idEq98 : generateTokenId (str "e30.MQ.s" ++ natDigits 98) = str "66bc23fc4e51423f" := rfl

theorem idEq99 : generateTokenId (str "e30.MQ.s" ++ natDigits 99) = str "8e15caf63b8dd266" := rfl

theorem idEq100 : generateTokenId (str "e30.MQ.s" ++ natDigits 100) = str "c8a406ab879dd3e6" := rfl


/-- The credential identities of `inputs101` are the literals of `ids101`. -/
theorem inputs101_map_ids :
    inputs101.map (fun i => generateTokenId i.1) = ids101 := by
  rw [show inputs101.map (fun i => generateTokenId i.1) =
      [generateTokenId (str "e30.MQ.s" ++ natDigits 0),
       generateTokenId (str "e30.MQ.s" ++ natDigits 1),
       generateTokenId (str "e30.MQ.s" ++ natDigits 2),
       generateTokenId (str "e30.MQ.s" ++ natDigits 3),
       generateTokenId (str "e30.MQ.s" ++ natDigits 4),
       generateTokenId (str "e30.MQ.s" ++ natDigits 5),
       generateTokenId (str "e30.MQ.s" ++ natDigits 6),
       generateTokenId (str "e30.MQ.s" ++ natDigits 7),
       generateTokenId (str "e30.MQ.s" ++ natDigits 8),
       generateTokenId (str "e30.MQ.s" ++ natDigits 9),
       generateTokenId (str "e30.MQ.s" ++ natDigits 10),
       generateTokenId (str "e30.MQ.s" ++ natDigits 11),
       generateTokenId (str "e30.MQ.s" ++ natDigits 12),
       generateTokenId (str "e30.MQ.s" ++ natDigits 13),
       generateTokenId (str "e30.MQ.s" ++ natDigits 14),
       generateTokenId (str "e30.MQ.s" ++ natDigits 15),
       generateTokenId (str "e30.MQ.s" ++ natDigits 16),
       generateTokenId (str "e30.MQ.s" ++ natDigits 17),
       generateTokenId (str "e30.MQ.s" ++ natDigits 18),
       generateTokenId (str "e30.MQ.s" ++ natDigits 19),
       generateTokenId (str "e30.MQ.s" ++ natDigits 20),
       generateTokenId (str "e30.MQ.s" ++ natDigits 21),
       generateTokenId (str "e30.MQ.s" ++ natDigits 22),
       generateTokenId (str "e30.MQ.s" ++ natDigits 23),
       generateTokenId (str "e30.MQ.s" ++ natDigits 24),
       generateTokenId (str "e30.MQ.s" ++ natDigits 25),
       generateTokenId (str "e30.MQ.s" ++ natDigits 26),
       generateTokenId (str "e30.MQ.s" ++ natDigits 27),
       generateTokenId (str "e30.MQ.s" ++ natDigits 28),
       generateTokenId (str "e30.MQ.s" ++ natDigits 29),
       generateTokenId (str "e30.MQ.s" ++ natDigits 30),
       generateTokenId (str "e30.MQ.s" ++ natDigits 31),
       generateTokenId (str "e30.MQ.s" ++ natDigits 32),
       generateTokenId (str "e30.MQ.s" ++ natDigits 33),
       generateTokenId (str "e30.MQ.s" ++ natDigits 34),
       generateTokenId (str "e30.MQ.s" ++ natDigits 35),
       generateTokenId (str "e30.MQ.s" ++ natDigits 36),
       generateTokenId (str "e30.MQ.s" ++ natDigits 37),
       generateTokenId (str "e30.MQ.s" ++ natDigits 38),
       generateTokenId (str "e30.MQ.s" ++ natDigits 39),
       generateTokenId (str "e30.MQ.s" ++ natDigits 40),
       generateTokenId (str "e30.MQ.s" ++ natDigits 41),
       generateTokenId (str "e30.MQ.s" ++ natDigits 42),
       generateTokenId (str "e30.MQ.s" ++ natDigits 43),
       generateTokenId (str "e30.MQ.s" ++ natDigits 44),
       generateTokenId (str "e30.MQ.s" ++ natDigits 45),
       generateTokenId (str "e30.MQ.s" ++ natDigits 46),
       generateTokenId (str "e30.MQ.s" ++ natDigits 47),
       generateTokenId (str "e30.MQ.s" ++ natDigits 48),
       generateTokenId (str "e30.MQ.s" ++ natDigits 49),
       generateTokenId (str "e30.MQ.s" ++ natDigits 50),
       generateTokenId (str "e30.MQ.s" ++ natDigits 51),
       generateTokenId (str "e30.MQ.s" ++ natDigits 52),
       generateTokenId (str "e30.MQ.s" ++ natDigits 53),
       generateTokenId (str "e30.MQ.s" ++ natDigits 54),
       generateTokenId (str "e30.MQ.s" ++ natDigits 55),
       generateTokenId (str "e30.MQ.s" ++ natDigits 56),
       generateTokenId (str "e30.MQ.s" ++ natDigits 57),
       generateTokenId (str "e30.MQ.s" ++ natDigits 58),
       generateTokenId (str "e30.MQ.s" ++ natDigits 59),
       generateTokenId (str "e30.MQ.s" ++ natDigits 60),
       generateTokenId (str "e30.MQ.s" ++ natDigits 61),
       generateTokenId (str "e30.MQ.s" ++ natDigits 62),
       generateTokenId (str "e30.MQ.s" ++ natDigits 63),
       generateTokenId (str "e30.MQ.s" ++ natDigits 64),
       generateTokenId (str "e30.MQ.s" ++ natDigits 65),
       generateTokenId (str "e30.MQ.s" ++ natDigits 66),
       generateTokenId (str "e30.MQ.s" ++ natDigits 67),
       generateTokenId (str "e30.MQ.s" ++ natDigits 68),
       generateTokenId (str "e30.MQ.s" ++ natDigits 69),
       generateTokenId (str "e30.MQ.s" ++ natDigits 70),
       generateTokenId (str "e30.MQ.s" ++ natDigits 71),
       generateTokenId (str "e30.MQ.s" ++ natDigits 72),
       generateTokenId (str "e30.MQ.s" ++ natDigits 73),
       generateTokenId (str "e30.MQ.s" ++ natDigits 74),
       generateTokenId (str "e30.MQ.s" ++ natDigits 75),
       generateTokenId (str "e30.MQ.s" ++ natDigits 76),
       generateTokenId (str "e30.MQ.s" ++ natDigits 77),
       generateTokenId (str "e30.MQ.s" ++ natDigits 78),
       generateTokenId (str "e30.MQ.s" ++ natDigits 79),
       generateTokenId (str "e30.MQ.s" ++ natDigits 80),
       generateTokenId (str "e30.MQ.s" ++ natDigits 81),
       generateTokenId (str "e30.MQ.s" ++ natDigits 82),
       generateTokenId (str "e30.MQ.s" ++ natDigits 83),
       generateTokenId (str "e30.MQ.s" ++ natDigits 84),
       generateTokenId (str "e30.MQ.s" ++ natDigits 85),
       generateTokenId (str "e30.MQ.s" ++ natDigits 86),
       generateTokenId (str "e30.MQ.s" ++ natDigits 87),
       generateTokenId (str "e30.MQ.s" ++ natDigits 88),
       generateTokenId (str "e30.MQ.s" ++ natDigits 89),
       generateTokenId (str "e30.MQ.s" ++ natDigits 90),
       generateTokenId (str "e30.MQ.s" ++ natDigits 91),
       generateTokenId (str "e30.MQ.s" ++ natDigits 92),
       generateTokenId (str "e30.MQ.s" ++ natDigits 93),
       generateTokenId (str "e30.MQ.s" ++ natDigits 94),
       generateTokenId (str "e30.MQ.s" ++ natDigits 95),
       generateTokenId (str "e30.MQ.s" ++ natDigits 96),
       generateTokenId (str "e30.MQ.s" ++ natDigits 97),
       generateTokenId (str "e30.MQ.s" ++ natDigits 98),
       generateTokenId (str "e30.MQ.s" ++ natDigits 99),
       generateTokenId (str "e30.MQ.s" ++ natDigits 100)] from rfl,
    idEq0, idEq1, idEq2, idEq3, idEq4, idEq5, idEq6, idEq7, idEq8, idEq9, idEq10, idEq11, idEq12, idEq13, idEq14, idEq15, idEq16, idEq17, idEq18, idEq19, idEq20, idEq21, idEq22, idEq23, idEq24, idEq25, idEq26, idEq27, idEq28, idEq29, idEq30, idEq31, idEq32, idEq33, idEq34, idEq35, idEq36, idEq37, idEq38, idEq39, idEq40, idEq41, idEq42, idEq43, idEq44, idEq45, idEq46, idEq47, idEq48, idEq49, idEq50, idEq51, idEq52, idEq53, idEq54, idEq55, idEq56, idEq57, idEq58, idEq59, idEq60, idEq61, idEq62, idEq63, idEq64, idEq65, idEq66, idEq67, idEq68, idEq69, idEq70, idEq71, idEq72, idEq73, idEq74, idEq75, idEq76, idEq77, idEq78, idEq79, idEq80, idEq81, idEq82, idEq83, idEq84, idEq85, idEq86, idEq87, idEq88, idEq89, idEq90, idEq91, idEq92, idEq93, idEq94, idEq95, idEq96, idEq97, idEq98, idEq99, idEq100]
  rfl

end C2Hashes

set_option maxRecDepth 100000 in
set_option maxHeartbeats 8000000 in
/-- C2 witness: the 101 concrete upserts leave exactly 100 groups, the 100
most recent identities newest-first. -/
theorem claim_C2_witness :
    (inputs101.foldl (fun acc i => storeTokenData 0 i.1 i.2 acc) []).length = 100 ∧
    (inputs101.foldl (fun acc i => storeTokenData 0 i.1 i.2 acc) []).map (·.tokenId) =
      ((inputs101.map fun i => generateTokenId i.1).reverse).take 100 :=
  claim_C2 0 inputs101 (by decide)
    (by rw [inputs101_map_ids]; decide)
    (by decide)
